import Mathlib

/-!
# Verification of the peritolegado schema-mapping and migration core

Shallow embedding, in Lean 4, of the parts of the repository that the
verified properties talk about:

* `DataConverter` (value conversion between type categories),
* `IntelligentMappingEngine` (string/type/table similarity, automatic
  table mapping, the mapping repository with update/remove and
  export/import),
* `IntelligentMigrationEngine.insertBatchWithRetry` (batch retry loop),
* `MigrationEngine` (the orchestrator: `migrateTable` batch streaming
  and `executeMigration` connect/disconnect sequencing).

JavaScript numbers are modelled by `ℚ` (all arithmetic appearing in the
embedded code paths is exact on the values involved); the one place where
the code can produce `NaN` (a `0/0` column-count ratio) is modelled
explicitly with `Option ℚ` (`none` = `NaN`).  JavaScript strings are
modelled by `String` / `List Char`, and the handful of regular-expression
replacements are implemented as direct left-to-right scans with the same
match semantics.
-/

namespace JS

/-- JS `String.prototype.trim`: drop whitespace from both ends. -/
def trimChars (cs : List Char) : List Char :=
  ((cs.dropWhile Char.isWhitespace).reverse.dropWhile Char.isWhitespace).reverse

/-- `s.toUpperCase()` (ASCII). -/
def upper (s : String) : String := String.mk (s.data.map Char.toUpper)

/-- `s.toLowerCase()` (ASCII). -/
def lowerChars (s : String) : List Char := s.data.map Char.toLower

/-- Does `cs` start with `pre`? -/
def leadsWith : List Char → List Char → Bool
  | _, [] => true
  | [], _ :: _ => false
  | c :: cs, d :: ds => c = d && leadsWith cs ds

/-- JS `hay.includes(sub)` on character lists. -/
def hasSub : List Char → List Char → Bool
  | cs, [] => (fun _ => true) cs
  | [], _ :: _ => false
  | c :: cs, d :: ds => leadsWith (c :: cs) (d :: ds) || hasSub cs (d :: ds)

/-- JS `hay.includes(sub)` on strings. -/
def strHasSub (hay sub : String) : Bool := hasSub hay.data sub.data

/-- One pass of a global regex replacement: `step` decides whether a match
starts at the current position and, if so, returns the replacement text and
the remainder after the match (a match always consumes at least one
character).  Scanning advances one character on a non-match, exactly like
`String.prototype.replace` with a `/g` regex.  `fuel` is an upper bound on
the remaining input length, making the recursion structural. -/
def replPass (step : List Char → Option (List Char × List Char)) :
    Nat → List Char → List Char
  | 0, cs => cs
  | _ + 1, [] => []
  | n + 1, c :: cs =>
    match step (c :: cs) with
    | some (out, rest) => out ++ replPass step n rest
    | none => c :: replPass step n cs

/-- JS `Math.round`: round half away from zero toward `+∞`. -/
def round (q : ℚ) : ℚ := (⌊q + 1 / 2⌋ : ℤ)

/-- Decimal digit run → value. -/
def digitsVal (ds : List Char) : Nat :=
  ds.foldl (fun acc c => acc * 10 + (c.toNat - '0'.toNat)) 0

/-- JS `Number(string)` restricted to the decimal grammar
`[+-]? (digits [. digits?]? | . digits) ([eE] [+-]? digits)?` after
trimming; the empty (all-whitespace) string is `0`; anything else —
including the hex/binary/`Infinity` forms never produced by the code
paths embedded here — is `NaN`, modelled as `none`. -/
def stringToNumber (s : String) : Option ℚ :=
  let cs := trimChars s.data
  if cs = [] then some 0 else
  let (sign, cs) := match cs with
    | '-' :: rest => ((-1 : ℚ), rest)
    | '+' :: rest => ((1 : ℚ), rest)
    | rest => ((1 : ℚ), rest)
  let intDigits := cs.takeWhile Char.isDigit
  let afterInt := cs.dropWhile Char.isDigit
  let (fracDigits, afterFrac) := match afterInt with
    | '.' :: rest => (rest.takeWhile Char.isDigit, rest.dropWhile Char.isDigit)
    | rest => ([], rest)
  if intDigits = [] ∧ fracDigits = [] then none else
  let mantissa : ℚ :=
    (digitsVal intDigits : ℚ) + (digitsVal fracDigits : ℚ) / (10 : ℚ) ^ fracDigits.length
  match afterFrac with
  | [] => some (sign * mantissa)
  | e :: rest =>
    if e = 'e' ∨ e = 'E' then
      let (esign, rest) := match rest with
        | '-' :: r => (true, r)
        | '+' :: r => (false, r)
        | r => (false, r)
      let eDigits := rest.takeWhile Char.isDigit
      if eDigits = [] ∨ rest.dropWhile Char.isDigit ≠ [] then none
      else if esign then some (sign * mantissa / (10 : ℚ) ^ digitsVal eDigits)
      else some (sign * mantissa * (10 : ℚ) ^ digitsVal eDigits)
    else none

/-- Left-pad a numeral with zeros. -/
def pad (width n : Nat) : String :=
  let s := toString n
  String.mk (List.replicate (width - s.length) '0') ++ s

/-- Rendering of a JS number whose value is a rational with a finite
decimal expansion (the only numbers `String(value)`/`toString` is applied
to on the embedded code paths are such values). -/
def numToString (q : ℚ) : String :=
  if q.den = 1 then toString q.num
  else
    let sign := if q < 0 then "-" else ""
    let q' := |q|
    let ip := (⌊q'⌋ : ℤ).toNat
    let k := (List.range 30).find? (fun k => ((q' - ip) * 10 ^ k).den = 1)
    match k with
    | some k => sign ++ toString ip ++ "." ++ pad k (((q' - ip) * 10 ^ k).num.toNat)
    | none => sign ++ toString q.num ++ "/" ++ toString q.den

end JS

/-- A JavaScript runtime value, restricted to the shapes the converter
handles: `null`, `undefined`, strings, numbers and `Date` objects (a date
is kept as year/month/day, the only components the embedded paths use). -/
inductive JSValue where
  | null
  | undef
  | str (s : String)
  | num (q : ℚ)
  | date (year month day : Nat)
  deriving DecidableEq, Repr

/-- JS `String(value)` for the values above. -/
def JSValue.toJSString : JSValue → String
  | .null => "null"
  | .undef => "undefined"
  | .str s => s
  | .num q => JS.numToString q
  | .date y m d => JS.pad 4 y ++ "-" ++ JS.pad 2 m ++ "-" ++ JS.pad 2 d

namespace DataConverter

/-- `src/adapters/data-converters.ts` — `ConversionResult`. -/
structure ConversionResult where
  success : Bool
  value : JSValue
  originalValue : JSValue
  originalType : String
  targetType : String
  conversionType : String
  warning : Option String := none
  error : Option String := none
  deriving DecidableEq, Repr

/-- Regex step for `/\(\d+\)/g` → `''`. -/
def parenNumStep : List Char → Option (List Char × List Char)
  | '(' :: rest =>
    match rest.takeWhile Char.isDigit, rest.dropWhile Char.isDigit with
    | _ :: _, ')' :: tl => some ([], tl)
    | _, _ => none
  | _ => none

/-- Regex step for `/\(\d+,\d+\)/g` → `''`. -/
def parenNumPairStep : List Char → Option (List Char × List Char)
  | '(' :: rest =>
    match rest.takeWhile Char.isDigit, rest.dropWhile Char.isDigit with
    | _ :: _, ',' :: r2 =>
      match r2.takeWhile Char.isDigit, r2.dropWhile Char.isDigit with
      | _ :: _, ')' :: tl => some ([], tl)
      | _, _ => none
    | _, _ => none
  | _ => none

/-- Regex step for `/FB_TYPE_\d+/g` → `'VARCHAR'`. -/
def fbTypeStep (cs : List Char) : Option (List Char × List Char) :=
  if JS.leadsWith cs ("FB_TYPE_".data) then
    let rest := cs.drop 8
    match rest.takeWhile Char.isDigit with
    | [] => none
    | _ :: _ => some ("VARCHAR".data, rest.dropWhile Char.isDigit)
  else none

/-- `DataConverter.normalizeType`: upper-case, strip `(20)`/`(18,2)`
parameters, map `FB_TYPE_n` codes to `VARCHAR`, trim.  The JS guard
`if (!type) return 'VARCHAR'` fires on the empty string. -/
def normalizeType (type : String) : String :=
  if type = "" then "VARCHAR"
  else
    let cs := type.data.map Char.toUpper
    let cs := JS.replPass parenNumStep cs.length cs
    let cs := JS.replPass parenNumPairStep cs.length cs
    let cs := JS.replPass fbTypeStep cs.length cs
    String.mk (JS.trimChars cs)

def textTypes : List String := ["VARCHAR", "TEXT", "CHAR", "STRING", "CSTRING"]

def numberTypes : List String :=
  ["INTEGER", "BIGINT", "SMALLINT", "NUMERIC", "REAL", "DOUBLE", "FLOAT"]

def dateTypes : List String := ["DATE", "TIMESTAMP", "DATETIME", "TIME"]

/-- `DataConverter.getConversionType`. -/
def getConversionType (sourceType targetType : String) : String :=
  let sourceNorm := normalizeType sourceType
  let targetNorm := normalizeType targetType
  if sourceNorm = targetNorm then "DIRECT"
  else if textTypes.contains sourceNorm ∧ dateTypes.contains targetNorm then "TEXT_TO_DATE"
  else if textTypes.contains sourceNorm ∧ numberTypes.contains targetNorm then "TEXT_TO_NUMBER"
  else if numberTypes.contains sourceNorm ∧ textTypes.contains targetNorm then "NUMBER_TO_TEXT"
  else if dateTypes.contains sourceNorm ∧ textTypes.contains targetNorm then "DATE_TO_TEXT"
  else if numberTypes.contains sourceNorm ∧ numberTypes.contains targetNorm then "NUMBER_TO_NUMBER"
  else if textTypes.contains sourceNorm ∧ textTypes.contains targetNorm then "TEXT_TO_TEXT"
  else "CUSTOM_CONVERSION"

/-- Gregorian month length, as produced by `new Date(y, m-1, d)`
normalization. -/
def daysInMonth (year month : Nat) : Nat :=
  if month = 2 then
    if year % 4 = 0 ∧ (year % 100 ≠ 0 ∨ year % 400 = 0) then 29 else 28
  else if month = 4 ∨ month = 6 ∨ month = 9 ∨ month = 11 then 30
  else 31

/-- The `new Date(year, month-1, day)` round-trip check in
`convertTextToDate` succeeds exactly when the components denote a real
calendar date. -/
def validYMD (year month day : Nat) : Bool :=
  1 ≤ month ∧ month ≤ 12 ∧ 1 ≤ day ∧ day ≤ daysInMonth year month

/-- Take exactly `n` digits, returning their value and the remainder. -/
def takeDigits (n : Nat) (cs : List Char) : Option (Nat × List Char) :=
  let ds := cs.take n
  if ds.length = n ∧ ds.all Char.isDigit then some (JS.digitsVal ds, cs.drop n)
  else none

/-- Match one of the five fixed date-format regexes of
`convertTextToDate` against the whole cleaned string, in source order,
returning `(year, month, day)`. -/
def matchDateFormat (cs : List Char) : Option (Nat × Nat × Nat) :=
  -- /^(\d{4})-(\d{2})-(\d{2})$/  YYYY-MM-DD
  (match takeDigits 4 cs with
   | some (y, '-' :: r1) =>
     match takeDigits 2 r1 with
     | some (m, '-' :: r2) =>
       match takeDigits 2 r2 with
       | some (d, []) => some (y, m, d)
       | _ => none
     | _ => none
   | _ => none) <|>
  -- /^(\d{2})\/(\d{2})\/(\d{4})$/  DD/MM/YYYY
  (match takeDigits 2 cs with
   | some (d, '/' :: r1) =>
     match takeDigits 2 r1 with
     | some (m, '/' :: r2) =>
       match takeDigits 4 r2 with
       | some (y, []) => some (y, m, d)
       | _ => none
     | _ => none
   | _ => none) <|>
  -- /^(\d{2})-(\d{2})-(\d{4})$/  DD-MM-YYYY
  (match takeDigits 2 cs with
   | some (d, '-' :: r1) =>
     match takeDigits 2 r1 with
     | some (m, '-' :: r2) =>
       match takeDigits 4 r2 with
       | some (y, []) => some (y, m, d)
       | _ => none
     | _ => none
   | _ => none) <|>
  -- /^(\d{4})(\d{2})(\d{2})$/  YYYYMMDD
  (match takeDigits 4 cs with
   | some (y, r1) =>
     match takeDigits 2 r1 with
     | some (m, r2) =>
       match takeDigits 2 r2 with
       | some (d, []) => some (y, m, d)
       | _ => none
     | _ => none
   | _ => none) <|>
  -- /^(\d{2})(\d{2})(\d{4})$/  DDMMYYYY
  (match takeDigits 2 cs with
   | some (d, r1) =>
     match takeDigits 2 r1 with
     | some (m, r2) =>
       match takeDigits 4 r2 with
       | some (y, []) => some (y, m, d)
       | _ => none
     | _ => none
   | _ => none)

/-- The free-form `new Date(string)` fallback of `convertTextToDate`,
modelled for the strict ISO `YYYY-MM-DD` shape (the only free-form input
with engine-independent semantics); every other string is `Invalid Date`.
No verified property depends on this fallback. -/
def jsDateParse (cs : List Char) : Option (Nat × Nat × Nat) :=
  match takeDigits 4 cs with
  | some (y, '-' :: r1) =>
    match takeDigits 2 r1 with
    | some (m, '-' :: r2) =>
      match takeDigits 2 r2 with
      | some (d, []) => if validYMD y m d then some (y, m, d) else none
      | _ => none
    | _ => none
  | _ => none

/-- `date.toISOString()` of a midnight date, modelled in UTC. -/
def isoString (y m d : Nat) : String :=
  JS.pad 4 y ++ "-" ++ JS.pad 2 m ++ "-" ++ JS.pad 2 d ++ "T00:00:00.000Z"

/-- `date.toISOString().split('T')[0]`. -/
def isoDateOnly (y m d : Nat) : String :=
  JS.pad 4 y ++ "-" ++ JS.pad 2 m ++ "-" ++ JS.pad 2 d

/-- `DataConverter.convertTextToDate`. -/
def convertTextToDate (value : JSValue) (targetType : String) : Except String JSValue :=
  match value with
  | .str s =>
    if s = "" then .error "Valor inválido para conversão de data"
    else
      let cleanValue := JS.trimChars s.data
      match matchDateFormat cleanValue with
      | some (y, m, d) =>
        if validYMD y m d then
          if JS.strHasSub targetType "TIMESTAMP" then .ok (.str (isoString y m d))
          else if JS.strHasSub targetType "TIME" then .ok (.str "00:00:00")
          else .ok (.str (isoDateOnly y m d))
        else
          fallbackDate cleanValue s targetType
      | none => fallbackDate cleanValue s targetType
  | _ => .error "Valor inválido para conversão de data"
where
  /-- The `new Date(cleanValue)` direct-parsing fallback. -/
  fallbackDate (cleanValue : List Char) (s : String) (targetType : String) :
      Except String JSValue :=
    match jsDateParse cleanValue with
    | some (y, m, d) =>
      if JS.strHasSub targetType "TIMESTAMP" then .ok (.str (isoString y m d))
      else .ok (.str (isoDateOnly y m d))
    | none => .error ("Não foi possível converter \"" ++ s ++ "\" para data")

/-- Regex step for `/,(?=\d{3})/g` → `''` (thousands separators); the
look-ahead digits are not consumed. -/
def thousandsStep : List Char → Option (List Char × List Char)
  | ',' :: a :: b :: c :: rest =>
    if a.isDigit ∧ b.isDigit ∧ c.isDigit then some ([], a :: b :: c :: rest) else none
  | _ => none

/-- JS `s.replace(',', '.')` — first occurrence only. -/
def replaceFirstComma : List Char → List Char
  | [] => []
  | c :: cs => if c = ',' then '.' :: cs else c :: replaceFirstComma cs

/-- `DataConverter.convertTextToNumber`.  The `targetType` received here is
already normalized by `executeConversion`'s caller. -/
def convertTextToNumber (value : JSValue) (targetType : String) : Except String ℚ :=
  match value with
  | .str s =>
    if s = "" then .error "Valor inválido para conversão numérica"
    else
      -- trim, remove all whitespace, strip thousands separators
      let cs := (JS.trimChars s.data).filter (fun c => ¬ c.isWhitespace)
      let cs := JS.replPass thousandsStep cs.length cs
      -- a lone decimal comma becomes a decimal point
      let cs := if cs.contains ',' ∧ ¬ cs.contains '.' then replaceFirstComma cs else cs
      match JS.stringToNumber (String.mk cs) with
      | none => .error ("Não foi possível converter \"" ++ s ++ "\" para número")
      | some numValue =>
        if JS.strHasSub targetType "INTEGER" ∨ JS.strHasSub targetType "BIGINT" ∨
            JS.strHasSub targetType "SMALLINT" then
          .ok (JS.round numValue)
        else .ok numValue
  | _ => .error "Valor inválido para conversão numérica"

/-- `DataConverter.convertNumberToText`. -/
def convertNumberToText (value : JSValue) : String :=
  match value with
  | .num q => JS.numToString q
  | v => v.toJSString

/-- `DataConverter.convertDateToText`. -/
def convertDateToText (value : JSValue) : String :=
  match value with
  | .date y m d => isoDateOnly y m d
  | v => v.toJSString

/-- `DataConverter.convertNumberToNumber`. -/
def convertNumberToNumber (value : JSValue) (targetType : String) : Except String ℚ :=
  match value with
  | .num q =>
    if JS.strHasSub targetType "INTEGER" ∨ JS.strHasSub targetType "BIGINT" ∨
        JS.strHasSub targetType "SMALLINT" then .ok (JS.round q)
    else .ok q
  | v =>
    match JS.stringToNumber v.toJSString with
    | none => .error ("Não foi possível converter \"" ++ v.toJSString ++ "\" para número")
    | some q =>
      if JS.strHasSub targetType "INTEGER" ∨ JS.strHasSub targetType "BIGINT" ∨
          JS.strHasSub targetType "SMALLINT" then .ok (JS.round q)
      else .ok q

/-- `DataConverter.executeConversion` — dispatch on the normalized type
categories; the final branch is the generic `String(value)` coercion. -/
def executeConversion (value : JSValue) (sourceType targetType : String) :
    Except String JSValue :=
  if textTypes.contains sourceType ∧ dateTypes.contains targetType then
    convertTextToDate value targetType
  else if textTypes.contains sourceType ∧ numberTypes.contains targetType then
    (convertTextToNumber value targetType).map JSValue.num
  else if numberTypes.contains sourceType ∧ textTypes.contains targetType then
    .ok (.str (convertNumberToText value))
  else if dateTypes.contains sourceType ∧ textTypes.contains targetType then
    .ok (.str (convertDateToText value))
  else if numberTypes.contains sourceType ∧ numberTypes.contains targetType then
    (convertNumberToNumber value targetType).map JSValue.num
  else if textTypes.contains sourceType ∧ textTypes.contains targetType then
    .ok (.str value.toJSString)
  else .ok (.str value.toJSString)

/-- `DataConverter.convert`. -/
def convert (value : JSValue) (sourceType targetType : String) : ConversionResult :=
  let base : ConversionResult :=
    { success := false, value := .null, originalValue := value,
      originalType := sourceType, targetType := targetType,
      conversionType := getConversionType sourceType targetType }
  if value = .null ∨ value = .undef then
    { base with success := true, value := value }
  else
    let sourceNorm := normalizeType sourceType
    let targetNorm := normalizeType targetType
    if sourceNorm = targetNorm then
      { base with success := true, value := value, conversionType := "DIRECT" }
    else
      match executeConversion value sourceNorm targetNorm with
      | .ok v => { base with success := true, value := v }
      | .error e => { base with success := false, error := some e, value := value }

end DataConverter

/-! ## `src/core/intelligent-mapping.ts` — the schema similarity engine -/

/-- `src/adapters/types.ts` — `ColumnInfo` (the fields the mapping engine
reads). -/
structure ColumnInfo where
  name : String
  type : String
  originalType : String := ""
  nullable : Bool := true
  maxLength : Option Nat := none
  precision : Option Nat := none
  scale : Option Nat := none
  deriving DecidableEq, Repr

/-- `src/adapters/types.ts` — `TableInfo` (the fields the mapping engine
reads). -/
structure TableInfo where
  name : String
  columns : List ColumnInfo
  primaryKeys : List String := []
  deriving DecidableEq, Repr

namespace IntelligentMapping

/-- The classic unit-cost edit distance — the recursive characterization of
the dynamic-programming matrix built in `calculateStringSimilarity`
(`matrix[j][i] = min(del+1, ins+1, sub+cost)` with first row/column
`0..n`).  The `fuel` argument (any bound `≥ |xs| + |ys|`) makes the
recursion structural. -/
def levFuel : Nat → List Char → List Char → Nat
  | _, [], ys => ys.length
  | _, x :: xs, [] => (x :: xs).length
  | 0, _ :: _, _ :: _ => 0
  | n + 1, x :: xs, y :: ys =>
    min (levFuel n xs (y :: ys) + 1)
      (min (levFuel n (x :: xs) ys + 1)
        (levFuel n xs ys + (if x = y then 0 else 1)))

/-- Edit distance between two character lists. -/
def editDistance (xs ys : List Char) : Nat := levFuel (xs.length + ys.length) xs ys

/-- `IntelligentMappingEngine.calculateStringSimilarity`: lower-case and
trim; `1` on equality, `0` when either side is empty, `0.8` on substring
containment, else the normalized Levenshtein similarity. -/
def calculateStringSimilarity (str1 str2 : String) : ℚ :=
  let s1 := JS.trimChars (JS.lowerChars str1)
  let s2 := JS.trimChars (JS.lowerChars str2)
  if s1 = s2 then 1
  else if s1.length = 0 ∨ s2.length = 0 then 0
  else if JS.hasSub s1 s2 || JS.hasSub s2 s1 then 0.8
  else
    let maxLength := max s1.length s2.length
    ((maxLength : ℚ) - (editDistance s1 s2 : ℚ)) / (maxLength : ℚ)

/-- The closed compatibility groups of
`IntelligentMappingEngine.calculateTypeSimilarity`. -/
def typeGroups : List (List String) :=
  [["VARCHAR", "CHAR", "TEXT", "STRING"],
   ["INTEGER", "INT", "SMALLINT", "BIGINT", "NUMBER"],
   ["DECIMAL", "NUMERIC", "FLOAT", "DOUBLE", "REAL"],
   ["DATE", "DATETIME", "TIMESTAMP"],
   ["BOOLEAN", "BIT", "LOGICAL"],
   ["BLOB", "BINARY", "VARBINARY"]]

/-- `IntelligentMappingEngine.calculateTypeSimilarity`: upper-case both
raw type strings (no parameter stripping happens here), `1` on equality,
`0.8` when some group contains both, else `0`. -/
def calculateTypeSimilarity (type1 type2 : String) : ℚ :=
  let t1 := JS.upper type1
  let t2 := JS.upper type2
  if t1 = t2 then 1
  else if typeGroups.any (fun group => group.contains t1 && group.contains t2) then 0.8
  else 0

/-- `IntelligentMappingEngine.calculateColumnStructureSimilarity`: the
average over the source columns of each column's best
`0.7·nameSim + 0.3·typeSim` match against any target column. -/
def calculateColumnStructureSimilarity
    (sourceColumns targetColumns : List ColumnInfo) : ℚ :=
  let matchingColumns := sourceColumns.foldl
    (fun acc sourceCol =>
      acc + targetColumns.foldl
        (fun bestMatch targetCol =>
          max bestMatch
            (calculateStringSimilarity sourceCol.name targetCol.name * 0.7 +
             calculateTypeSimilarity sourceCol.type targetCol.type * 0.3))
        0)
    0
  let totalWeight := sourceColumns.length
  if 0 < totalWeight then matchingColumns / (totalWeight : ℚ) else 0

/-- `IntelligentMappingEngine.calculateTableSimilarity`:
`(0.4·nameSim + 0.2·columnCountRatio + 0.4·columnSim) / (0.4+0.2+0.4)`.
When both column lists are empty the JS expression
`Math.min(0,0)/Math.max(0,0)` is `0/0 = NaN`, which poisons the whole
score; `NaN` is modelled as `none`. -/
def calculateTableSimilarity (source target : TableInfo) : Option ℚ :=
  if source.columns.length = 0 ∧ target.columns.length = 0 then none
  else
    let nameSimilarity := calculateStringSimilarity source.name target.name
    let columnCountRatio :=
      (min source.columns.length target.columns.length : ℚ) /
      (max source.columns.length target.columns.length : ℚ)
    let columnSimilarity :=
      calculateColumnStructureSimilarity source.columns target.columns
    some ((nameSimilarity * 0.4 + columnCountRatio * 0.2 + columnSimilarity * 0.4) /
      (0.4 + 0.2 + 0.4))

/-- `IntelligentMappingEngine.getTableSimilarityReason`. -/
def getTableSimilarityReason (_source _target : TableInfo) (similarity : ℚ) : String :=
  if similarity > 0.9 then "Nome muito similar e estrutura compatível"
  else if similarity > 0.7 then "Estrutura de colunas compatível"
  else if similarity > 0.5 then "Algumas colunas similares encontradas"
  else "Possível correspondência baseada em análise estrutural"

/-- `MappingSuggestion`. -/
structure MappingSuggestion where
  type : String
  sourceItem : String
  targetItem : String
  confidence : ℚ
  reason : String
  deriving DecidableEq, Repr

/-- Stable insertion into a descending-by-confidence list: the element
goes after every earlier element of greater-or-equal confidence. -/
def insertDesc (x : MappingSuggestion) : List MappingSuggestion → List MappingSuggestion
  | [] => [x]
  | y :: ys => if y.confidence < x.confidence then x :: y :: ys else y :: insertDesc x ys

/-- JS `Array.prototype.sort((a, b) => b.confidence - a.confidence)`: a
stable descending sort by confidence (V8's sort is stable). -/
def sortByConfidenceDesc (l : List MappingSuggestion) : List MappingSuggestion :=
  l.foldr insertDesc []

/-- `IntelligentMappingEngine.findTableSuggestions`: one suggestion per
target table with similarity above the `0.3` floor (a `NaN` similarity
compares false), sorted by descending confidence. -/
def findTableSuggestions (targetSchema : List TableInfo) (sourceTable : TableInfo) :
    List MappingSuggestion :=
  sortByConfidenceDesc (targetSchema.filterMap (fun targetTable =>
    match calculateTableSimilarity sourceTable targetTable with
    | none => none
    | some similarity =>
      if similarity > 0.3 then
        some { type := "table", sourceItem := sourceTable.name,
               targetItem := targetTable.name, confidence := similarity,
               reason := getTableSimilarityReason sourceTable targetTable similarity }
      else none))

/-- `ValidationRule` (the fields the embedded paths populate). -/
structure ValidationRule where
  type : String
  max : Option Nat := none
  pattern : Option String := none
  errorMessage : Option String := none
  deriving DecidableEq, Repr

/-- `FieldTransformation`. -/
structure FieldTransformation where
  type : String
  expression : Option String := none
  format : Option String := none
  precision : Option Nat := none
  scale : Option Nat := none
  validation : Option ValidationRule := none
  paradoxType : Option String := none
  firebirdType : Option String := none
  deriving DecidableEq, Repr

/-- JS `x || d` on an optional number field (`0` is falsy). -/
def jsOrNat (o : Option Nat) (d : Nat) : Nat :=
  match o with
  | some 0 => d
  | some n => n
  | none => d

/-- `IntelligentMappingEngine.createParadoxToFirebirdTransformation`. -/
def createParadoxToFirebirdTransformation
    (sourceColumn targetColumn : ColumnInfo) : FieldTransformation :=
  let sourceType := JS.upper sourceColumn.type
  let targetType := JS.upper targetColumn.type
  if sourceType = "A" ∨ sourceType = "ALPHA" then
    { type := "convert", expression := some ("TRIM(" ++ sourceColumn.name ++ ")"),
      validation := some { type := "length", max := some (jsOrNat targetColumn.maxLength 255),
                           errorMessage := some "Texto muito longo para o campo de destino" },
      paradoxType := some "ALPHA", firebirdType := some "VARCHAR" }
  else if sourceType = "N" ∨ sourceType = "NUMBER" then
    { type := "convert",
      expression := some ("CAST(" ++ sourceColumn.name ++ " AS NUMERIC(" ++
        toString (jsOrNat targetColumn.precision 15) ++ "," ++
        toString (jsOrNat targetColumn.scale 2) ++ "))"),
      precision := some (jsOrNat targetColumn.precision 15),
      scale := some (jsOrNat targetColumn.scale 2),
      paradoxType := some "NUMBER", firebirdType := some "NUMERIC" }
  else if sourceType = "C" ∨ sourceType = "CURRENCY" then
    { type := "convert",
      expression := some ("CAST(" ++ sourceColumn.name ++ " AS NUMERIC(15,2))"),
      precision := some 15, scale := some 2,
      paradoxType := some "CURRENCY", firebirdType := some "NUMERIC" }
  else if sourceType = "D" ∨ sourceType = "DATE" then
    { type := "format", format := some "YYYY-MM-DD",
      expression := some ("CAST(" ++ sourceColumn.name ++ " AS DATE)"),
      paradoxType := some "DATE", firebirdType := some "DATE" }
  else if sourceType = "T" ∨ sourceType = "TIME" then
    { type := "format", format := some "HH:mm:ss",
      expression := some ("CAST(" ++ sourceColumn.name ++ " AS TIME)"),
      paradoxType := some "TIME", firebirdType := some "TIME" }
  else if sourceType = "@" ∨ sourceType = "TIMESTAMP" then
    { type := "format", format := some "YYYY-MM-DD HH:mm:ss",
      expression := some ("CAST(" ++ sourceColumn.name ++ " AS TIMESTAMP)"),
      paradoxType := some "TIMESTAMP", firebirdType := some "TIMESTAMP" }
  else if sourceType = "L" ∨ sourceType = "LOGICAL" then
    { type := "convert",
      expression := some ("CASE WHEN " ++ sourceColumn.name ++ " = 'T' THEN TRUE WHEN " ++
        sourceColumn.name ++ " = 'F' THEN FALSE ELSE NULL END"),
      paradoxType := some "LOGICAL", firebirdType := some "BOOLEAN" }
  else if sourceType = "M" ∨ sourceType = "MEMO" then
    { type := "convert",
      expression := some ("CAST(" ++ sourceColumn.name ++ " AS BLOB SUB_TYPE TEXT)"),
      paradoxType := some "MEMO", firebirdType := some "BLOB SUB_TYPE TEXT" }
  else if sourceType = "#" ∨ sourceType = "+" then
    { type := "calculate",
      expression := some ("GEN_ID(GEN_" ++ JS.upper targetColumn.name ++ ", 1)"),
      paradoxType := some "AUTOINCREMENT", firebirdType := some "INTEGER" }
  else
    { type := "convert",
      expression := some ("CAST(" ++ sourceColumn.name ++ " AS " ++ targetType ++ ")") }

/-- `IntelligentMappingEngine.isParadoxColumn`. -/
def isParadoxColumn (column : ColumnInfo) : Bool :=
  ["A", "N", "C", "D", "T", "@", "L", "M", "B", "F", "O", "G", "#", "+", "Y"].contains
      column.type
    || column.originalType.length = 1

/-- `IntelligentMappingEngine.isSQLiteColumn`. -/
def isSQLiteColumn (column : ColumnInfo) : Bool :=
  ["INTEGER", "TEXT", "REAL", "BLOB", "NUMERIC"].contains (JS.upper column.type)

/-- `IntelligentMappingEngine.createSQLiteToFirebirdTransformation`. -/
def createSQLiteToFirebirdTransformation
    (sourceColumn targetColumn : ColumnInfo) : FieldTransformation :=
  let sourceType := JS.upper sourceColumn.type
  let targetType := JS.upper targetColumn.type
  if sourceType = "TEXT" ∧ JS.strHasSub targetType "VARCHAR" then
    { type := "convert",
      expression := some ("CAST(" ++ sourceColumn.name ++ " AS VARCHAR(" ++
        toString (jsOrNat targetColumn.maxLength 255) ++ "))"),
      validation := some { type := "length", max := some (jsOrNat targetColumn.maxLength 255),
                           errorMessage := some "Texto muito longo para o campo de destino" },
      paradoxType := some "TEXT", firebirdType := some "VARCHAR" }
  else if sourceType = "INTEGER" ∧ targetType = "INTEGER" then
    { type := "direct", paradoxType := some "INTEGER", firebirdType := some "INTEGER" }
  else if sourceType = "REAL" ∧ JS.strHasSub targetType "NUMERIC" then
    { type := "convert",
      expression := some ("CAST(" ++ sourceColumn.name ++ " AS NUMERIC(" ++
        toString (jsOrNat targetColumn.precision 15) ++ "," ++
        toString (jsOrNat targetColumn.scale 2) ++ "))"),
      precision := some (jsOrNat targetColumn.precision 15),
      scale := some (jsOrNat targetColumn.scale 2),
      paradoxType := some "REAL", firebirdType := some "NUMERIC" }
  else if sourceType = "BLOB" ∧ JS.strHasSub targetType "BLOB" then
    { type := "convert",
      expression := some ("CAST(" ++ sourceColumn.name ++ " AS BLOB SUB_TYPE BINARY)"),
      paradoxType := some "BLOB", firebirdType := some "BLOB SUB_TYPE BINARY" }
  else
    { type := "convert",
      expression := some ("CAST(" ++ sourceColumn.name ++ " AS " ++ targetType ++ ")") }

/-- `IntelligentMappingEngine.generateFieldTransformation`. -/
def generateFieldTransformation (sourceColumn targetColumn : ColumnInfo) :
    FieldTransformation :=
  if isParadoxColumn sourceColumn then
    createParadoxToFirebirdTransformation sourceColumn targetColumn
  else if isSQLiteColumn sourceColumn then
    createSQLiteToFirebirdTransformation sourceColumn targetColumn
  else
    let sourceType := JS.upper sourceColumn.type
    let targetType := JS.upper targetColumn.type
    if calculateTypeSimilarity sourceType targetType ≥ 0.8 then
      { type := "direct" }
    else if ["VARCHAR", "CHAR", "TEXT"].contains sourceType ∧
        ["INTEGER", "DECIMAL", "NUMERIC"].contains targetType then
      { type := "convert",
        expression := some ("CAST(" ++ sourceColumn.name ++ " AS " ++ targetType ++ ")"),
        validation := some { type := "pattern", pattern := some "^[0-9.,-]+$",
                             errorMessage := some "Valor deve ser numérico" } }
    else if ["INTEGER", "DECIMAL", "NUMERIC"].contains sourceType ∧
        ["VARCHAR", "CHAR", "TEXT"].contains targetType then
      { type := "convert",
        expression := some ("CAST(" ++ sourceColumn.name ++ " AS " ++ targetType ++ ")") }
    else if JS.strHasSub sourceType "DATE" ∧ JS.strHasSub targetType "DATE" then
      { type := "format", format := some "YYYY-MM-DD HH:mm:ss" }
    else
      { type := "convert",
        expression := some ("CAST(" ++ sourceColumn.name ++ " AS " ++ targetType ++ ")") }

/-- `ColumnMapping`. -/
structure ColumnMapping where
  id : String
  sourceColumn : String
  sourceType : String
  targetColumn : String
  targetType : String
  transformation : Option FieldTransformation := none
  nullable : Bool
  confidence : ℚ
  autoDetected : Bool
  deriving DecidableEq, Repr

/-- `IntelligentMappingEngine.findBestColumnMatch`: the target column of
highest `0.7·nameSim + 0.3·typeSim`, kept only above the `0.5` floor. -/
def findBestColumnMatch (sourceColumn : ColumnInfo) (targetColumns : List ColumnInfo) :
    Option (ColumnInfo × ℚ) :=
  targetColumns.foldl
    (fun bestMatch targetCol =>
      let confidence :=
        calculateStringSimilarity sourceColumn.name targetCol.name * 0.7 +
        calculateTypeSimilarity sourceColumn.type targetCol.type * 0.3
      if confidence > 0.5 then
        match bestMatch with
        | none => some (targetCol, confidence)
        | some (_, bestConf) =>
          if confidence > bestConf then some (targetCol, confidence) else bestMatch
      else bestMatch)
    none

/-- `IntelligentMappingEngine.generateColumnMappings`. -/
def generateColumnMappings (sourceColumns targetColumns : List ColumnInfo) :
    List ColumnMapping :=
  sourceColumns.filterMap (fun sourceCol =>
    (findBestColumnMatch sourceCol targetColumns).map (fun best =>
      { id := sourceCol.name ++ "_to_" ++ best.1.name,
        sourceColumn := sourceCol.name, sourceType := sourceCol.type,
        targetColumn := best.1.name, targetType := best.1.type,
        transformation := some (generateFieldTransformation sourceCol best.1),
        nullable := best.1.nullable,
        confidence := best.2 * 100,
        autoDetected := true }))

/-- `JoinCondition`. -/
structure JoinCondition where
  sourceTable : String
  sourceColumn : String
  targetTable : String
  targetColumn : String
  joinType : String
  deriving DecidableEq, Repr

/-- `TableMapping`.  `confidence` is `Option ℚ` because the JS value can
be `NaN` (a `NaN` table similarity scaled by 100). -/
structure TableMapping where
  id : String
  sourceTable : String
  targetTable : String
  columnMappings : List ColumnMapping
  enabled : Bool
  confidence : Option ℚ
  mappingType : String
  joinConditions : Option (List JoinCondition) := none
  filterConditions : Option (List String) := none
  deriving DecidableEq, Repr

/-- The engine's mutable state: the two analyzed schemas and the
`tableMappings` JS `Map`, modelled as an insertion-ordered association
list with unique keys. -/
structure EngineState where
  sourceSchema : List TableInfo
  targetSchema : List TableInfo
  tableMappings : List (String × TableMapping)
  deriving DecidableEq, Repr

/-- JS `Map.prototype.set`: replace in place if the key exists, else
append. -/
def mapSet (m : List (String × TableMapping)) (k : String) (v : TableMapping) :
    List (String × TableMapping) :=
  if m.any (fun p => p.1 == k) then
    m.map (fun p => if p.1 == k then (k, v) else p)
  else m ++ [(k, v)]

/-- JS `Map.prototype.get`. -/
def mapGet (m : List (String × TableMapping)) (k : String) : Option TableMapping :=
  (m.find? (fun p => p.1 == k)).map (fun p => p.2)

/-- `IntelligentMappingEngine.createTableMapping` (throws when either
table name is not found in the analyzed schemas). -/
def createTableMapping (st : EngineState) (sourceTable targetTable : String)
    (autoDetected : Bool) : Except String (EngineState × TableMapping) :=
  match st.sourceSchema.find? (fun t => t.name == sourceTable),
        st.targetSchema.find? (fun t => t.name == targetTable) with
  | some sourceTableInfo, some targetTableInfo =>
    let mappingId := sourceTable ++ "_to_" ++ targetTable
    let columnMappings :=
      generateColumnMappings sourceTableInfo.columns targetTableInfo.columns
    let mapping : TableMapping :=
      { id := mappingId, sourceTable := sourceTable, targetTable := targetTable,
        columnMappings := columnMappings, enabled := true,
        confidence :=
          if autoDetected then
            (calculateTableSimilarity sourceTableInfo targetTableInfo).map (· * 100)
          else some 100,
        mappingType := "one-to-one" }
    .ok ({ st with tableMappings := mapSet st.tableMappings mappingId mapping }, mapping)
  | _, _ => .error ("Tabela não encontrada: " ++ sourceTable ++ " ou " ++ targetTable)

/-- The per-source-table loop body of
`IntelligentMappingEngine.generateTableSuggestions`: auto-map the best
suggestion when its confidence reaches the threshold, and accumulate all
suggestions. -/
def gtsGo (threshold : ℚ) :
    List TableInfo → EngineState → List MappingSuggestion →
    Except String (EngineState × List MappingSuggestion)
  | [], st, suggs => .ok (st, suggs)
  | sourceTable :: rest, st, suggs =>
    let suggestions := findTableSuggestions st.targetSchema sourceTable
    match suggestions with
    | [] => gtsGo threshold rest st suggs
    | bestMatch :: _ =>
      if bestMatch.confidence ≥ threshold then
        match createTableMapping st sourceTable.name bestMatch.targetItem true with
        | .ok (st', _) => gtsGo threshold rest st' (suggs ++ suggestions)
        | .error e => .error e
      else gtsGo threshold rest st (suggs ++ suggestions)

/-- `IntelligentMappingEngine.generateTableSuggestions` (the suggestion
list is reset to `[]` before the loop). -/
def generateTableSuggestions (threshold : ℚ) (st : EngineState) :
    Except String (EngineState × List MappingSuggestion) :=
  gtsGo threshold st.sourceSchema st []

end IntelligentMapping

namespace IntelligentMapping

/-- Events emitted by the mapping repository operations. -/
inductive MappingEvent where
  | mappingUpdated (id : String) (mapping : TableMapping)
  | mappingRemoved (id : String)
  deriving DecidableEq, Repr

/-- `Partial<TableMapping>`, the argument of `updateTableMapping`:
each field is present or absent. -/
structure TableMappingPatch where
  id : Option String := none
  sourceTable : Option String := none
  targetTable : Option String := none
  columnMappings : Option (List ColumnMapping) := none
  enabled : Option Bool := none
  confidence : Option (Option ℚ) := none
  mappingType : Option String := none
  joinConditions : Option (Option (List JoinCondition)) := none
  filterConditions : Option (Option (List String)) := none
  deriving DecidableEq, Repr

/-- `Object.assign(mapping, updates)`: fields present in the patch
overwrite the mapping's fields. -/
def applyPatch (m : TableMapping) (p : TableMappingPatch) : TableMapping :=
  { id := p.id.getD m.id,
    sourceTable := p.sourceTable.getD m.sourceTable,
    targetTable := p.targetTable.getD m.targetTable,
    columnMappings := p.columnMappings.getD m.columnMappings,
    enabled := p.enabled.getD m.enabled,
    confidence := p.confidence.getD m.confidence,
    mappingType := p.mappingType.getD m.mappingType,
    joinConditions := p.joinConditions.getD m.joinConditions,
    filterConditions := p.filterConditions.getD m.filterConditions }

/-- `IntelligentMappingEngine.updateTableMapping`: mutate the stored
mapping in place (the `Map` key is untouched, even when the patch rewrites
`id`) and emit `mapping-updated`; a missing id does nothing. -/
def updateTableMapping (repo : List (String × TableMapping)) (id : String)
    (updates : TableMappingPatch) : List (String × TableMapping) × List MappingEvent :=
  match mapGet repo id with
  | some mapping =>
    let updated := applyPatch mapping updates
    (repo.map (fun p => if p.1 == id then (p.1, updated) else p),
     [MappingEvent.mappingUpdated id updated])
  | none => (repo, [])

/-- `IntelligentMappingEngine.removeTableMapping`: `Map.delete` and emit
`mapping-removed` only when the key was present. -/
def removeTableMapping (repo : List (String × TableMapping)) (id : String) :
    List (String × TableMapping) × List MappingEvent :=
  if repo.any (fun p => p.1 == id) then
    (repo.filter (fun p => ¬ (p.1 == id)), [MappingEvent.mappingRemoved id])
  else (repo, [])

/-- `IntelligentMappingEngine.exportMappingConfig`: of the exported
object, the `mappings` array (`Array.from(this.tableMappings.values())`)
is the part the round trip reads back; the config/schema summaries and
timestamp do not enter the repository. -/
def exportMappingConfig (repo : List (String × TableMapping)) : List TableMapping :=
  repo.map (fun p => p.2)

/-- `IntelligentMappingEngine.importMappingConfig`: `config.mappings` is
always truthy for an exported object (even `[]` is), so the map is
cleared and each mapping is re-inserted keyed by its own `id`. -/
def importMappingConfig (mappings : List TableMapping) : List (String × TableMapping) :=
  mappings.foldl (fun m mapping => mapSet m mapping.id mapping) []

end IntelligentMapping

/-! ## `src/core/intelligent-migration.ts` — batch insertion retry -/

namespace IntelligentMigration

/-- Outcome of one `insertBatchWithRetry` call against a deterministic
mock target: how many `insertData` attempts were issued, how many
`retryDelay` sleeps happened between them, and whether the call returned
normally (`ok = true`) or propagated the insert error (`ok = false`). -/
structure RetryResult where
  attempts : Nat
  sleeps : Nat
  ok : Bool
  deriving DecidableEq, Repr

/-- The `while (attempt < maxRetries)` loop of
`IntelligentMigrationEngine.insertBatchWithRetry`.  `remaining` is
`maxRetries - attempt` (the loop guard), `attempt` counts failed attempts
so far exactly like the JS `attempt` variable, and `attemptOk n` tells
whether the `n`-th (0-based) `insertData` call succeeds. -/
def retryGo (attemptOk : Nat → Bool) : Nat → Nat → Nat → RetryResult
  | 0, attempt, sleeps => ⟨attempt, sleeps, true⟩
  | remaining + 1, attempt, sleeps =>
    if attemptOk attempt then ⟨attempt + 1, sleeps, true⟩
    else
      -- catch: attempt++; rethrow when attempt >= maxRetries, else sleep
      if remaining = 0 then ⟨attempt + 1, sleeps, false⟩
      else retryGo attemptOk remaining (attempt + 1) (sleeps + 1)

/-- `IntelligentMigrationEngine.insertBatchWithRetry`. -/
def insertBatchWithRetry (maxRetries : Nat) (attemptOk : Nat → Bool) : RetryResult :=
  retryGo attemptOk maxRetries 0 0

end IntelligentMigration

/-! ## The `MigrationEngine` orchestrator (`src/core/migration-engine.ts`,
shipped inside `dev.bat`) -/

namespace MigrationEngine

/-- Observable events/calls of one `migrateTable` run, in real-time
order. -/
inductive TEvent where
  | tableStarted
  | createTableCall
  | insertRowsCall (rows : Nat)
  | progressEvent (processedInTable : Nat)
  | tableCompleted (rowCount : Nat)
  deriving DecidableEq, Repr

/-- Result of one `migrateTable` run over a finite row stream. -/
structure TableRunResult where
  trace : List TEvent
  processedRows : Nat
  leftoverRows : Nat
  deriving DecidableEq, Repr

/-- The `'data'` handler of `migrateTable`: push the row, and when the
batch is full, insert it (unless `dryRun`), bump the counters, emit a
progress event and reset the batch.  State:
`(batch length, processedInTable, events so far)`. -/
def dataHandlerStep (batchSize : Nat) (dryRun : Bool)
    (st : Nat × Nat × List TEvent) (_row : Unit) : Nat × Nat × List TEvent :=
  let (batchLen, processedInTable, events) := st
  let batchLen := batchLen + 1
  if batchSize ≤ batchLen then
    let events := events ++ (if dryRun then [] else [TEvent.insertRowsCall batchLen])
    let processedInTable := processedInTable + batchLen
    (0, processedInTable, events ++ [TEvent.progressEvent processedInTable])
  else (batchLen, processedInTable, events)

/-- `MigrationEngine.migrateTable` against a source stream that yields
`rows` and a mock target.  Node semantics: `dataStream.on('data', …)`
only registers the handler, so the remainder of the method body — the
trailing `if (batch.length > 0)` flush and the `table:completed` emit —
runs synchronously while `batch` is still empty and `processedInTable`
is still `0`; the `'data'` events are delivered afterwards.  No `'end'`
listener is ever attached, so rows accumulated after the last full batch
(`leftoverRows`) are never inserted.  (The trailing flush also only adds
to `processedRows`, never to `processedInTable`, exactly like the
source.) -/
def migrateTable (batchSize : Nat) (dryRun : Bool) (targetHasTable : Bool)
    (rows : List Unit) : TableRunResult :=
  -- synchronous part of the method body
  let batch0 : List Unit := []
  let processedInTable0 : Nat := 0
  let createPart : List TEvent :=
    if targetHasTable then [] else if dryRun then [] else [TEvent.createTableCall]
  let finalFlush : List TEvent :=
    if 0 < batch0.length then
      (if dryRun then [] else [TEvent.insertRowsCall batch0.length])
    else []
  let processedSync : Nat := if 0 < batch0.length then batch0.length else 0
  let syncTrace : List TEvent :=
    [TEvent.tableStarted] ++ createPart ++ finalFlush ++
    [TEvent.tableCompleted processedInTable0]
  -- 'data' events delivered after the method body has returned
  let final := rows.foldl (dataHandlerStep batchSize dryRun) (0, 0, [])
  { trace := syncTrace ++ final.2.2,
    processedRows := processedSync + final.2.1,
    leftoverRows := final.1 }

/-- Success/failure script for every adapter call `executeMigration`
makes, one migration-run scenario per value. -/
structure AdapterBehavior where
  srcConnectOk : Bool := true
  tgtConnectOk : Bool := true
  srcTestOk : Bool := true
  tgtTestOk : Bool := true
  srcSchemaOk : Bool := true
  tgtSchemaOk : Bool := true
  countRowsOk : Bool := true
  tablesOk : List Bool := []
  srcDisconnectOk : Bool := true
  tgtDisconnectOk : Bool := true
  deriving DecidableEq, Repr

/-- The adapter calls `executeMigration` can make. -/
inductive MCall where
  | srcConnect
  | tgtConnect
  | srcTest
  | tgtTest
  | srcGetSchema
  | tgtGetSchema
  | countRows
  | migrateTableCall (idx : Nat)
  | srcDisconnect
  | tgtDisconnect
  deriving DecidableEq, Repr

/-- Run a sequence of awaited calls; the first rejected one aborts the
`try` body (its call is still issued). -/
def runSteps : List (MCall × Bool) → List MCall × Bool
  | [] => ([], true)
  | (c, ok) :: rest =>
    if ok then
      let r := runSteps rest
      (c :: r.1, r.2)
    else ([c], false)

/-- The calls of the `try` body of `executeMigration`, in source order:
connect both adapters, validate both connections, fetch both schemas,
count rows, then migrate each table. -/
def migrationBody (b : AdapterBehavior) : List (MCall × Bool) :=
  [(MCall.srcConnect, b.srcConnectOk), (MCall.tgtConnect, b.tgtConnectOk),
   (MCall.srcTest, b.srcTestOk), (MCall.tgtTest, b.tgtTestOk),
   (MCall.srcGetSchema, b.srcSchemaOk), (MCall.tgtGetSchema, b.tgtSchemaOk),
   (MCall.countRows, b.countRowsOk)] ++
  ((List.range b.tablesOk.length).zip b.tablesOk).map
    (fun p => (MCall.migrateTableCall p.1, p.2))

/-- `MigrationEngine.executeMigration`: the `try` body above, then the
`finally` block, whose own `try { src.disconnect; tgt.disconnect } catch`
always calls `disconnect` on the source and — unless that call itself
rejects — on the target, swallowing cleanup errors.  The returned `Bool`
is whether the body completed (on `false`, `startMigration` emits
`migration:failed`). -/
def executeMigration (b : AdapterBehavior) : List MCall × Bool :=
  let body := runSteps (migrationBody b)
  let cleanup :=
    [MCall.srcDisconnect] ++ (if b.srcDisconnectOk then [MCall.tgtDisconnect] else [])
  (body.1 ++ cleanup, body.2)

end MigrationEngine

/-! ## Supporting lemmas: similarity bounds -/

namespace IntelligentMapping

theorem levFuel_le_max : ∀ (n : Nat) (xs ys : List Char),
    levFuel n xs ys ≤ max xs.length ys.length := by
  intro n
  induction n with
  | zero =>
    intro xs ys
    cases xs <;> cases ys <;> simp [levFuel]
  | succ n ih =>
    intro xs ys
    cases xs with
    | nil => simp [levFuel]
    | cons x xs =>
      cases ys with
      | nil => simp [levFuel]
      | cons y ys =>
        have h3 : levFuel n xs ys + (if x = y then 0 else 1) ≤
            max xs.length ys.length + 1 := by
          have := ih xs ys
          split <;> omega
        have hchain : levFuel (n + 1) (x :: xs) (y :: ys) ≤
            levFuel n xs ys + (if x = y then 0 else 1) := by
          rw [levFuel]
          exact le_trans (min_le_right _ _) (min_le_right _ _)
        have hm : max xs.length ys.length + 1 =
            max (x :: xs).length (y :: ys).length := by
          simp only [List.length_cons]
          omega
        omega

theorem editDistance_le_max (xs ys : List Char) :
    editDistance xs ys ≤ max xs.length ys.length :=
  levFuel_le_max _ xs ys

theorem strSim_bounds (a b : String) :
    0 ≤ calculateStringSimilarity a b ∧ calculateStringSimilarity a b ≤ 1 := by
  unfold calculateStringSimilarity
  set s1 := JS.trimChars (JS.lowerChars a) with hs1
  set s2 := JS.trimChars (JS.lowerChars b) with hs2
  dsimp only
  split_ifs with h1 h2 h3
  · norm_num
  · norm_num
  · norm_num
  · have hmax : 1 ≤ max s1.length s2.length := by
      rcases Nat.eq_zero_or_pos s1.length with h | h
      · exact absurd (Or.inl h) h2
      · omega
    have hd : (editDistance s1 s2 : ℚ) ≤ ((max s1.length s2.length : Nat) : ℚ) := by
      exact_mod_cast editDistance_le_max s1 s2
    have hq : (0 : ℚ) < ((max s1.length s2.length : Nat) : ℚ) := by
      exact_mod_cast hmax
    have hz : (0 : ℚ) ≤ (editDistance s1 s2 : ℚ) := by
      exact_mod_cast Nat.zero_le _
    constructor
    · exact div_nonneg (by linarith) (le_of_lt hq)
    · rw [div_le_one hq]
      linarith

theorem typeSim_bounds (a b : String) :
    0 ≤ calculateTypeSimilarity a b ∧ calculateTypeSimilarity a b ≤ 1 := by
  unfold calculateTypeSimilarity
  dsimp only
  split_ifs <;> norm_num

theorem le_foldl_max {α : Type} (f : α → ℚ) (l : List α) (acc : ℚ) :
    acc ≤ l.foldl (fun b c => max b (f c)) acc := by
  induction l generalizing acc with
  | nil => simp
  | cons c cs ih => exact le_trans (le_max_left _ _) (ih _)

theorem foldl_max_le {α : Type} (f : α → ℚ) (l : List α) (acc : ℚ)
    (hacc : acc ≤ 1) (hf : ∀ c ∈ l, f c ≤ 1) :
    l.foldl (fun b c => max b (f c)) acc ≤ 1 := by
  induction l generalizing acc with
  | nil => simpa
  | cons c cs ih =>
    simp only [List.foldl_cons]
    exact ih _ (max_le hacc (hf c (List.mem_cons_self c cs)))
      (fun d hd => hf d (List.mem_cons_of_mem c hd))

theorem le_foldl_add {α : Type} (f : α → ℚ) (l : List α) (acc : ℚ)
    (hf : ∀ c ∈ l, 0 ≤ f c) :
    acc ≤ l.foldl (fun a c => a + f c) acc := by
  induction l generalizing acc with
  | nil => simp
  | cons c cs ih =>
    simp only [List.foldl_cons]
    have h1 : acc ≤ acc + f c := by
      have := hf c (List.mem_cons_self c cs)
      linarith
    exact le_trans h1 (ih _ (fun d hd => hf d (List.mem_cons_of_mem c hd)))

theorem foldl_add_le {α : Type} (f : α → ℚ) (l : List α) (acc : ℚ)
    (hf : ∀ c ∈ l, f c ≤ 1) :
    l.foldl (fun a c => a + f c) acc ≤ acc + l.length := by
  induction l generalizing acc with
  | nil => simp
  | cons c cs ih =>
    simp only [List.foldl_cons, List.length_cons]
    have h1 : cs.foldl (fun a c => a + f c) (acc + f c) ≤ acc + f c + cs.length :=
      ih _ (fun d hd => hf d (List.mem_cons_of_mem c hd))
    have h2 : f c ≤ 1 := hf c (List.mem_cons_self c cs)
    push_cast
    linarith

/-- Each column's best-match score is within `[0, 1]`. -/
theorem bestMatchScore_bounds (sourceCol : ColumnInfo) (targetColumns : List ColumnInfo) :
    0 ≤ targetColumns.foldl
        (fun bestMatch targetCol =>
          max bestMatch
            (calculateStringSimilarity sourceCol.name targetCol.name * 0.7 +
             calculateTypeSimilarity sourceCol.type targetCol.type * 0.3))
        0 ∧
      targetColumns.foldl
        (fun bestMatch targetCol =>
          max bestMatch
            (calculateStringSimilarity sourceCol.name targetCol.name * 0.7 +
             calculateTypeSimilarity sourceCol.type targetCol.type * 0.3))
        0 ≤ 1 := by
  constructor
  · exact le_foldl_max _ _ _
  · apply foldl_max_le _ _ _ (by norm_num)
    intro c _
    obtain ⟨hn0, hn1⟩ := strSim_bounds sourceCol.name c.name
    obtain ⟨ht0, ht1⟩ := typeSim_bounds sourceCol.type c.type
    nlinarith

theorem csim_bounds (s t : List ColumnInfo) :
    0 ≤ calculateColumnStructureSimilarity s t ∧
      calculateColumnStructureSimilarity s t ≤ 1 := by
  unfold calculateColumnStructureSimilarity
  dsimp only
  split
  · rename_i hpos
    have h0 : (0 : ℚ) ≤ s.foldl
        (fun acc sourceCol =>
          acc + t.foldl
            (fun bestMatch targetCol =>
              max bestMatch
                (calculateStringSimilarity sourceCol.name targetCol.name * 0.7 +
                 calculateTypeSimilarity sourceCol.type targetCol.type * 0.3))
            0)
        0 := by
      apply le_foldl_add
      intro c _
      exact (bestMatchScore_bounds c t).1
    have h1 : s.foldl
        (fun acc sourceCol =>
          acc + t.foldl
            (fun bestMatch targetCol =>
              max bestMatch
                (calculateStringSimilarity sourceCol.name targetCol.name * 0.7 +
                 calculateTypeSimilarity sourceCol.type targetCol.type * 0.3))
            0)
        0 ≤ 0 + (s.length : ℚ) := by
      apply foldl_add_le
      intro c _
      exact (bestMatchScore_bounds c t).2
    have hlen : (0 : ℚ) < (s.length : ℚ) := by exact_mod_cast hpos
    constructor
    · positivity
    · rw [div_le_one hlen]
      linarith
  · norm_num

end IntelligentMapping

/-- C6: for every source and target `TableInfo` — including tables with an
empty column list on one side — the table similarity score
`0.4·nameSim + 0.2·columnCountRatio + 0.4·columnStructureSim` is a number
in `[0, 1]`.  Amended: this holds whenever at least one of the two column
lists is non-empty; when both are empty the JS score is `NaN` (`0/0`
column-count ratio), not a number in `[0, 1]` (see the counterexample). -/
theorem C6_table_similarity_amended (source target : TableInfo)
    (h : source.columns ≠ [] ∨ target.columns ≠ []) :
    ∃ q, IntelligentMapping.calculateTableSimilarity source target = some q ∧
      0 ≤ q ∧ q ≤ 1 := by
  unfold IntelligentMapping.calculateTableSimilarity
  have hguard : ¬ (source.columns.length = 0 ∧ target.columns.length = 0) := by
    rcases h with h | h
    · intro ⟨h1, _⟩
      exact h (List.length_eq_zero.mp h1)
    · intro ⟨_, h2⟩
      exact h (List.length_eq_zero.mp h2)
  rw [if_neg hguard]
  refine ⟨_, rfl, ?_, ?_⟩ <;>
  · obtain ⟨hn0, hn1⟩ :=
      IntelligentMapping.strSim_bounds source.name target.name
    obtain ⟨hc0, hc1⟩ :=
      IntelligentMapping.csim_bounds source.columns target.columns
    have hmaxpos : 0 < max source.columns.length target.columns.length := by
      rcases Nat.eq_zero_or_pos source.columns.length with h1 | h1
      · rcases Nat.eq_zero_or_pos target.columns.length with h2 | h2
        · exact absurd ⟨h1, h2⟩ hguard
        · omega
      · omega
    have hq : (0 : ℚ) < (max source.columns.length target.columns.length : ℚ) := by
      exact_mod_cast hmaxpos
    have hminmax : (min source.columns.length target.columns.length : ℚ) ≤
        (max source.columns.length target.columns.length : ℚ) := by
      exact_mod_cast min_le_max (a := source.columns.length) (b := target.columns.length)
    have hr0 : (0 : ℚ) ≤ (min source.columns.length target.columns.length : ℚ) /
        (max source.columns.length target.columns.length : ℚ) := by positivity
    have hr1 : (min source.columns.length target.columns.length : ℚ) /
        (max source.columns.length target.columns.length : ℚ) ≤ 1 := by
      rw [div_le_one hq]
      exact hminmax
    rw [show (0.4 + 0.2 + 0.4 : ℚ) = 1 by norm_num, div_one]
    nlinarith

/-- C6 counterexample: when both tables have empty column lists the score
is `NaN` (the JS `0/0` column-count ratio poisons the weighted sum), so it
is not a number in `[0, 1]`; the claim's "including tables with empty
column lists" fails. -/
theorem C6_counterexample :
    IntelligentMapping.calculateTableSimilarity ⟨"t", [], []⟩ ⟨"t", [], []⟩ = none := by
  decide

/-- C6 witness: two one-column tables have a well-defined score in
`[0, 1]`. -/
theorem C6_witness :
    ∃ q, IntelligentMapping.calculateTableSimilarity
        ⟨"clientes", [⟨"id", "INTEGER", "INTEGER", true, none, none, none⟩], []⟩
        ⟨"clientes", [⟨"id", "INTEGER", "INTEGER", true, none, none, none⟩], []⟩ = some q ∧
      0 ≤ q ∧ q ≤ 1 :=
  C6_table_similarity_amended _ _ (Or.inl (by decide))

/-! ## C4 — type similarity -/

namespace IntelligentMapping

/-- The amended claim's reading of type similarity, written from its own
words for comparison with `calculateTypeSimilarity`: upper-case the raw
strings (no parameter stripping), return `1.0` when equal, `0.8` when the
two are distinct members of a common compatibility group, else `0.0`. -/
def typeSimilaritySpec (type1 type2 : String) : ℚ :=
  let t1 := JS.upper type1
  let t2 := JS.upper type2
  if t1 = t2 then 1
  else if ∃ g ∈ typeGroups, t1 ∈ g ∧ t2 ∈ g then 0.8
  else 0

theorem calculateTypeSimilarity_eq_spec (type1 type2 : String) :
    calculateTypeSimilarity type1 type2 = typeSimilaritySpec type1 type2 := by
  unfold calculateTypeSimilarity typeSimilaritySpec
  dsimp only
  congr 1
  have : (typeGroups.any fun group =>
      group.contains (JS.upper type1) && group.contains (JS.upper type2)) = true ↔
      ∃ g ∈ typeGroups, JS.upper type1 ∈ g ∧ JS.upper type2 ∈ g := by
    simp [List.any_eq_true]
  split_ifs with hb hp hp <;> first
    | rfl
    | exact absurd (this.mp hb) hp
    | exact absurd (this.mpr hp) (by simpa using hb)

end IntelligentMapping

/-- C4 counterexample: `calculateTypeSimilarity` does not strip
parenthesized parameters, so `typeSimilarity("VARCHAR(255)", "VARCHAR")`
is `0.0`, not the claimed `1.0`: upper-casing leaves `VARCHAR(255)`
distinct from `VARCHAR` and member of no compatibility group. -/
theorem C4_counterexample :
    IntelligentMapping.calculateTypeSimilarity "VARCHAR(255)" "VARCHAR" = 0 ∧
      (0 : ℚ) ≠ 1 := by
  constructor
  · decide
  · norm_num

/-- C4: type similarity of two raw type strings.  Amended: the normalized
form is just the upper-cased string — parenthesized parameters are NOT
stripped here (that happens only in `DataConverter.normalizeType`) — and
the integer-like compatibility group additionally contains `INT`; with
that, similarity is `1.0` on equal normalized types, `0.8` for distinct
members of a common group, else `0.0`; in particular
`typeSimilarity("VARCHAR(255)", "VARCHAR") = 0.0`. -/
theorem C4_type_similarity_amended :
    (∀ type1 type2, IntelligentMapping.calculateTypeSimilarity type1 type2 =
      IntelligentMapping.typeSimilaritySpec type1 type2) ∧
      IntelligentMapping.calculateTypeSimilarity "VARCHAR(255)" "VARCHAR" = 0 := by
  exact ⟨IntelligentMapping.calculateTypeSimilarity_eq_spec, by decide⟩

/-- C1 counterexample: `DECIMAL` is absent from the converter's
`numberTypes` list, so `convert("1,234.50", "VARCHAR", "DECIMAL")` never
reaches the TEXT→NUMBER path: it falls through to the generic
`String(value)` coercion and returns the unchanged string, not the number
`1234.5`. -/
theorem C1_counterexample :
    (DataConverter.convert (JSValue.str "1,234.50") "VARCHAR" "DECIMAL").value =
      JSValue.str "1,234.50" ∧
      (DataConverter.convert (JSValue.str "1,234.50") "VARCHAR" "DECIMAL").value ≠
        JSValue.num (2469 / 2) := by
  have hv : (DataConverter.convert (JSValue.str "1,234.50") "VARCHAR" "DECIMAL").value =
      JSValue.str "1,234.50" := by
    norm_num +decide [DataConverter.convert, DataConverter.executeConversion,
      DataConverter.normalizeType, DataConverter.getConversionType,
      DataConverter.textTypes, DataConverter.numberTypes, DataConverter.dateTypes,
      JS.replPass, DataConverter.parenNumStep, DataConverter.parenNumPairStep,
      DataConverter.fbTypeStep, JS.trimChars, JSValue.toJSString]
  exact ⟨hv, by rw [hv]; intro h; cases h⟩

/-- C1: the TEXT→NUMBER conversion of `"1,234.50"`.  Amended: because
`DECIMAL` is not one of the converter's recognized numeric types
(`INTEGER, BIGINT, SMALLINT, NUMERIC, REAL, DOUBLE, FLOAT`), a `DECIMAL`
target takes the generic string-coercion fallback and yields the string
`"1,234.50"` with `success = true` and conversion type
`CUSTOM_CONVERSION`; for a recognized non-integer numeric target such as
`NUMERIC`, the TEXT→NUMBER path (strip whitespace, drop thousands
separators, normalize a lone decimal comma, no rounding) yields the
number `1234.5`, and an integer target such as `INTEGER` yields the
rounded `1235`. -/
theorem C1_text_to_number_amended :
    (DataConverter.convert (JSValue.str "1,234.50") "VARCHAR" "DECIMAL").success = true ∧
    (DataConverter.convert (JSValue.str "1,234.50") "VARCHAR" "DECIMAL").value =
      JSValue.str "1,234.50" ∧
    (DataConverter.convert (JSValue.str "1,234.50") "VARCHAR" "DECIMAL").conversionType =
      "CUSTOM_CONVERSION" ∧
    (DataConverter.convert (JSValue.str "1,234.50") "VARCHAR" "NUMERIC").success = true ∧
    (DataConverter.convert (JSValue.str "1,234.50") "VARCHAR" "NUMERIC").value =
      JSValue.num (2469 / 2) ∧
    (DataConverter.convert (JSValue.str "1,234.50") "VARCHAR" "INTEGER").value =
      JSValue.num 1235 := by
  have h1 : JS.digitsVal ['1', '2', '3', '4'] = 1234 := by decide
  have h2 : JS.digitsVal ['5', '0'] = 50 := by decide
  refine ⟨?_, ?_, ?_, ?_, ?_, ?_⟩ <;>
    norm_num +decide [DataConverter.convert, DataConverter.executeConversion,
      DataConverter.convertTextToNumber, DataConverter.normalizeType,
      DataConverter.getConversionType, DataConverter.textTypes,
      DataConverter.numberTypes, DataConverter.dateTypes, JS.stringToNumber,
      JS.trimChars, JS.replPass, DataConverter.parenNumStep,
      DataConverter.parenNumPairStep, DataConverter.fbTypeStep,
      DataConverter.thousandsStep, DataConverter.replaceFirstComma, JS.strHasSub,
      JS.hasSub, JS.leadsWith, JSValue.toJSString, Except.map, JS.round, h1, h2]

namespace IntelligentMigration

theorem retryGo_allFail (r a s : Nat) (h : 1 ≤ r) :
    retryGo (fun _ => false) r a s = ⟨a + r, s + (r - 1), false⟩ := by
  induction r generalizing a s with
  | zero => omega
  | succ r ih =>
    rw [retryGo.eq_def]
    simp only [Bool.false_eq_true, if_false]
    cases r with
    | zero => simp
    | succ r' =>
      simp only [Nat.succ_ne_zero, if_false]
      rw [ih (a + 1) (s + 1) (by omega)]
      congr 1 <;> omega

end IntelligentMigration

/-- C3 counterexample: with `maxRetries = 3` and an always-failing
insert, `insertBatchWithRetry` issues exactly 3 `insertData` attempts in
total (one initial try and two retries) with 2 sleeps between them, then
propagates the error — not the claimed 1 + 3 = 4 attempts. -/
theorem C3_counterexample :
    IntelligentMigration.insertBatchWithRetry 3 (fun _ => false) =
      { attempts := 3, sleeps := 2, ok := false } ∧ (3 : Nat) ≠ 1 + 3 := by
  decide

/-- C3: retry behaviour of a failing batch insert.  Amended: the
`while (attempt < maxRetries)` loop makes `maxRetries` insert attempts in
TOTAL — one initial attempt followed by `maxRetries − 1` retries — with a
`retryDelay` sleep between consecutive attempts, and only then propagates
the failure (to be recorded as a table error under the `skipErrors`
policy by `migrateTable`'s catch); a batch that succeeds at once is
inserted exactly once with no sleep. -/
theorem C3_retry_amended :
    (∀ maxRetries, 1 ≤ maxRetries →
      IntelligentMigration.insertBatchWithRetry maxRetries (fun _ => false) =
        { attempts := maxRetries, sleeps := maxRetries - 1, ok := false }) ∧
    (∀ maxRetries, 1 ≤ maxRetries →
      IntelligentMigration.insertBatchWithRetry maxRetries (fun _ => true) =
        { attempts := 1, sleeps := 0, ok := true }) := by
  constructor
  · intro n hn
    unfold IntelligentMigration.insertBatchWithRetry
    rw [IntelligentMigration.retryGo_allFail n 0 0 hn]
    congr 1 <;> omega
  · intro n hn
    unfold IntelligentMigration.insertBatchWithRetry
    cases n with
    | zero => omega
    | succ n' => rw [IntelligentMigration.retryGo.eq_def]; simp

/-- C3 witness: the amended theorem at `maxRetries = 3`. -/
theorem C3_witness :
    IntelligentMigration.insertBatchWithRetry 3 (fun _ => false) =
      { attempts := 3, sleeps := 2, ok := false } :=
  C3_retry_amended.1 3 (by norm_num)

namespace MigrationEngine

/-- The events the `'data'` handler emits for `q` consecutive full
batches of size `k`, starting from `processedInTable = p`. -/
def batchEvents (dry : Bool) (k : Nat) : Nat → Nat → List TEvent
  | _, 0 => []
  | p, q + 1 =>
    (if dry then [] else [TEvent.insertRowsCall k]) ++
      [TEvent.progressEvent (p + k)] ++ batchEvents dry k (p + k) q

theorem handler_partial (k : Nat) (dry : Bool) :
    ∀ (j b p : Nat) (evs : List TEvent), b + j < k →
      (List.replicate j ()).foldl (dataHandlerStep k dry) (b, p, evs) = (b + j, p, evs) := by
  intro j
  induction j with
  | zero => intro b p evs _; simp
  | succ j ih =>
    intro b p evs h
    rw [List.replicate_succ, List.foldl_cons]
    have hstep : dataHandlerStep k dry (b, p, evs) () = (b + 1, p, evs) := by
      unfold dataHandlerStep
      dsimp only
      rw [if_neg (by omega)]
    rw [hstep, ih (b + 1) p evs (by omega)]
    congr 1
    omega

theorem handler_batch (k : Nat) (dry : Bool) (hk : 0 < k) (p : Nat) (evs : List TEvent) :
    (List.replicate k ()).foldl (dataHandlerStep k dry) (0, p, evs) =
      (0, p + k,
        evs ++ (if dry then [] else [TEvent.insertRowsCall k]) ++
          [TEvent.progressEvent (p + k)]) := by
  have hrep : List.replicate k () = List.replicate (k - 1) () ++ [()] := by
    rw [← List.replicate_succ']
    congr 1
    omega
  rw [hrep, List.foldl_append, handler_partial k dry (k - 1) 0 p evs (by omega)]
  simp only [List.foldl_cons, List.foldl_nil]
  unfold dataHandlerStep
  dsimp only
  rw [if_pos (by omega)]
  have hkk : 0 + (k - 1) + 1 = k := by omega
  rw [hkk]

theorem handler_run (k : Nat) (dry : Bool) (hk : 0 < k) :
    ∀ (q r p : Nat) (evs : List TEvent), r < k →
      (List.replicate (q * k + r) ()).foldl (dataHandlerStep k dry) (0, p, evs) =
        (r, p + q * k, evs ++ batchEvents dry k p q) := by
  intro q
  induction q with
  | zero =>
    intro r p evs hr
    rw [show 0 * k + r = r by omega, handler_partial k dry r 0 p evs (by omega)]
    simp [batchEvents]
  | succ q ih =>
    intro r p evs hr
    have hsplit : List.replicate ((q + 1) * k + r) () =
        List.replicate k () ++ List.replicate (q * k + r) () := by
      rw [← List.replicate_add]
      congr 1
      ring
    rw [hsplit, List.foldl_append, handler_batch k dry hk p evs,
      ih r (p + k) _ hr]
    rw [batchEvents]
    simp only [Prod.mk.injEq]
    exact ⟨trivial, by ring, by simp [List.append_assoc]⟩

end MigrationEngine

/-- C2: migrating a 2,500-row stream with `batchSize = 1000`,
`dryRun = false`.  The claim says three `insertRows` calls (1000, 1000,
500) and one `table:completed` with `rowCount = 2500`; the code instead
registers the `'data'` handler without awaiting the stream (and attaches
no `'end'` listener), so the method body's trailing flush and its
`table:completed` emit run while `batch` is still empty: the event fires
first with `rowCount = 0`, only the two full batches are ever inserted,
and the final 500 rows stay in `batch` forever. -/
theorem C2_batch_insert_behavior :
    MigrationEngine.migrateTable 1000 false false (List.replicate 2500 ()) =
      { trace := [MigrationEngine.TEvent.tableStarted,
                  MigrationEngine.TEvent.createTableCall,
                  MigrationEngine.TEvent.tableCompleted 0,
                  MigrationEngine.TEvent.insertRowsCall 1000,
                  MigrationEngine.TEvent.progressEvent 1000,
                  MigrationEngine.TEvent.insertRowsCall 1000,
                  MigrationEngine.TEvent.progressEvent 2000],
        processedRows := 2000,
        leftoverRows := 500 } := by
  unfold MigrationEngine.migrateTable
  rw [show (2500 : Nat) = 2 * 1000 + 500 by norm_num,
    MigrationEngine.handler_run 1000 false (by norm_num) 2 500 0 [] (by norm_num)]
  simp [MigrationEngine.batchEvents]

/-- C7: the same 2,500-row stream with `dryRun = true`.  `insertRows`
(and `createTable`) is indeed never invoked — every write is guarded by
`if (!config.dryRun)` — but the claim's second half fails:
`progress.processedRows` only ever advances by full batches (the trailing
partial batch is dropped by the missing end-of-stream flush), so it
reaches 2000, not the source row count 2500. -/
theorem C7_dry_run_behavior :
    MigrationEngine.migrateTable 1000 true false (List.replicate 2500 ()) =
      { trace := [MigrationEngine.TEvent.tableStarted,
                  MigrationEngine.TEvent.tableCompleted 0,
                  MigrationEngine.TEvent.progressEvent 1000,
                  MigrationEngine.TEvent.progressEvent 2000],
        processedRows := 2000,
        leftoverRows := 500 } ∧
      (∀ n, MigrationEngine.TEvent.insertRowsCall n ∉
        (MigrationEngine.migrateTable 1000 true false (List.replicate 2500 ())).trace) ∧
      MigrationEngine.TEvent.createTableCall ∉
        (MigrationEngine.migrateTable 1000 true false (List.replicate 2500 ())).trace ∧
      (2000 : Nat) ≠ 2500 := by
  have heq : MigrationEngine.migrateTable 1000 true false (List.replicate 2500 ()) =
      { trace := [MigrationEngine.TEvent.tableStarted,
                  MigrationEngine.TEvent.tableCompleted 0,
                  MigrationEngine.TEvent.progressEvent 1000,
                  MigrationEngine.TEvent.progressEvent 2000],
        processedRows := 2000,
        leftoverRows := 500 } := by
    unfold MigrationEngine.migrateTable
    rw [show (2500 : Nat) = 2 * 1000 + 500 by norm_num,
      MigrationEngine.handler_run 1000 true (by norm_num) 2 500 0 [] (by norm_num)]
    simp [MigrationEngine.batchEvents]
  refine ⟨heq, ?_, ?_, by norm_num⟩
  · intro n
    rw [heq]
    simp
  · rw [heq]
    simp

/-- C9: on every exit path of `executeMigration` — every success/failure
script for the adapter calls, covering normal completion and an abort at
any step — the `finally` cleanup runs: `disconnect` is called on the
source adapter, and, provided that call itself does not reject, on the
target adapter as well; in particular, when the target is unreachable at
startup (`connect` rejects), the migration fails (`startMigration` then
emits `migration:failed`) and `disconnect` is still called on the source
adapter. -/
theorem C9_cleanup_on_all_exit_paths (b : MigrationEngine.AdapterBehavior) :
    MigrationEngine.MCall.srcDisconnect ∈ (MigrationEngine.executeMigration b).1 ∧
      (b.srcDisconnectOk = true →
        MigrationEngine.MCall.tgtDisconnect ∈ (MigrationEngine.executeMigration b).1) ∧
      (b.tgtConnectOk = false →
        (MigrationEngine.executeMigration b).2 = false ∧
          MigrationEngine.MCall.srcDisconnect ∈ (MigrationEngine.executeMigration b).1) := by
  refine ⟨?_, ?_, ?_⟩
  · unfold MigrationEngine.executeMigration
    simp
  · intro h
    unfold MigrationEngine.executeMigration
    simp [h]
  · intro h
    refine ⟨?_, ?_⟩
    · unfold MigrationEngine.executeMigration MigrationEngine.migrationBody
      cases hb : b.srcConnectOk <;>
        simp [MigrationEngine.runSteps, hb, h]
    · unfold MigrationEngine.executeMigration
      simp

/-- C9 witness: a run whose target `connect` rejects — the body fails and
both disconnects still appear in the trace. -/
theorem C9_witness :
    (MigrationEngine.executeMigration { tgtConnectOk := false }).2 = false ∧
      MigrationEngine.MCall.srcDisconnect ∈
        (MigrationEngine.executeMigration { tgtConnectOk := false }).1 ∧
      MigrationEngine.MCall.tgtDisconnect ∈
        (MigrationEngine.executeMigration { tgtConnectOk := false }).1 :=
  ⟨(C9_cleanup_on_all_exit_paths { tgtConnectOk := false }).2.2 rfl |>.1,
   (C9_cleanup_on_all_exit_paths { tgtConnectOk := false }).2.2 rfl |>.2,
   (C9_cleanup_on_all_exit_paths { tgtConnectOk := false }).2.1 rfl⟩

namespace IntelligentMapping

theorem mapGet_none_any_false (repo : List (String × TableMapping)) (id : String)
    (h : mapGet repo id = none) : repo.any (fun p => p.1 == id) = false := by
  unfold mapGet at h
  rw [Option.map_eq_none'] at h
  rw [List.find?_eq_none] at h
  rw [List.any_eq_false]
  intro p hp
  simpa using h p hp

end IntelligentMapping

/-- C10: for an id that is absent from the repository,
`updateTableMapping` and `removeTableMapping` are no-ops — the stored
mappings are unchanged and no `mapping-updated` / `mapping-removed` event
is emitted; and for any id, every stored entry other than the addressed
key survives both operations untouched. -/
theorem C10_update_remove_frame (repo : List (String × IntelligentMapping.TableMapping))
    (id : String) (patch : IntelligentMapping.TableMappingPatch) :
    (IntelligentMapping.mapGet repo id = none →
      IntelligentMapping.updateTableMapping repo id patch = (repo, []) ∧
        IntelligentMapping.removeTableMapping repo id = (repo, [])) ∧
      (∀ k m, (k, m) ∈ repo → k ≠ id →
        (k, m) ∈ (IntelligentMapping.updateTableMapping repo id patch).1 ∧
          (k, m) ∈ (IntelligentMapping.removeTableMapping repo id).1) := by
  constructor
  · intro hnone
    constructor
    · unfold IntelligentMapping.updateTableMapping
      rw [hnone]
    · unfold IntelligentMapping.removeTableMapping
      rw [IntelligentMapping.mapGet_none_any_false repo id hnone]
      simp
  · intro k m hmem hne
    have hbeq : (k == id) = false := by
      simpa using hne
    constructor
    · unfold IntelligentMapping.updateTableMapping
      cases hget : IntelligentMapping.mapGet repo id with
      | none => simpa using hmem
      | some mapping =>
        dsimp only
        refine List.mem_map.mpr ⟨(k, m), hmem, ?_⟩
        simp [hbeq]
    · unfold IntelligentMapping.removeTableMapping
      split_ifs with hany
      · dsimp only
        refine List.mem_filter.mpr ⟨hmem, ?_⟩
        simp [hbeq]
      · exact hmem

/-- C10 witness: the no-op case at a concrete repository and missing id. -/
theorem C10_witness :
    IntelligentMapping.updateTableMapping
        [("a_to_b", { id := "a_to_b", sourceTable := "a", targetTable := "b",
                      columnMappings := [], enabled := true, confidence := none,
                      mappingType := "one-to-one" })] "missing" {} =
      ([("a_to_b", { id := "a_to_b", sourceTable := "a", targetTable := "b",
                     columnMappings := [], enabled := true, confidence := none,
                     mappingType := "one-to-one" })], []) :=
  ((C10_update_remove_frame _ "missing" {}).1 (by decide)).1

namespace IntelligentMapping

theorem mapSet_cons_ne (k : String) (m : TableMapping)
    (acc : List (String × TableMapping)) (k' : String) (v : TableMapping)
    (h : k ≠ k') :
    mapSet ((k, m) :: acc) k' v = (k, m) :: mapSet acc k' v := by
  unfold mapSet
  have hbeq : (k == k') = false := by simpa using h
  simp only [List.any_cons, hbeq, Bool.false_or]
  split_ifs with hany
  · simp only [List.map_cons, hbeq, if_false]
    simp [hbeq]
  · simp

theorem import_fold_cons (vs : List TableMapping) (k : String) (m : TableMapping)
    (acc : List (String × TableMapping)) (h : ∀ v ∈ vs, v.id ≠ k) :
    vs.foldl (fun mm mp => mapSet mm mp.id mp) ((k, m) :: acc) =
      (k, m) :: vs.foldl (fun mm mp => mapSet mm mp.id mp) acc := by
  induction vs generalizing acc with
  | nil => simp
  | cons v vs ih =>
    simp only [List.foldl_cons]
    rw [mapSet_cons_ne k m acc v.id v (h v (List.mem_cons_self v vs)).symm]
    exact ih _ (fun w hw => h w (List.mem_cons_of_mem v hw))

end IntelligentMapping

/-- C8: exporting and then importing the mapping configuration.  Amended:
for every repository state whose stored `TableMapping`s carry pairwise
distinct ids — equivalently, where every `Map` key still equals its
mapping's `id` field, which holds for all states produced by the creation
and import operations themselves and can only be broken by an
`updateTableMapping` patch that rewrites `id` — the round trip restores
the repository exactly: same keys, same mappings, same column mappings
and transformation expressions (they are carried verbatim, never
re-encoded). -/
theorem C8_export_import_roundtrip_amended
    (repo : List (String × IntelligentMapping.TableMapping))
    (hkeys : ∀ p ∈ repo, p.1 = p.2.id)
    (hnodup : (repo.map Prod.fst).Nodup) :
    IntelligentMapping.importMappingConfig
      (IntelligentMapping.exportMappingConfig repo) = repo := by
  induction repo with
  | nil => rfl
  | cons p rest ih =>
    obtain ⟨k, m⟩ := p
    have hk : k = m.id := hkeys (k, m) (List.mem_cons_self _ rest)
    have hnodup' : (rest.map Prod.fst).Nodup := (List.nodup_cons.mp hnodup).2
    have hknot : k ∉ rest.map Prod.fst := (List.nodup_cons.mp hnodup).1
    unfold IntelligentMapping.exportMappingConfig IntelligentMapping.importMappingConfig
    simp only [List.map_cons, List.foldl_cons]
    have h0 : IntelligentMapping.mapSet [] m.id m = [(m.id, m)] := rfl
    rw [h0]
    have hids : ∀ v ∈ rest.map (fun p => p.2), v.id ≠ m.id := by
      intro v hv
      obtain ⟨q, hq, rfl⟩ := List.mem_map.mp hv
      have hq1 : q.1 = q.2.id := hkeys q (List.mem_cons_of_mem _ hq)
      have hqk : q.1 ≠ k := by
        intro he
        exact hknot (he ▸ List.mem_map.mpr ⟨q, hq, rfl⟩)
      rw [← hq1, ← hk]
      exact hqk
    rw [IntelligentMapping.import_fold_cons _ m.id m [] hids]
    have hrest := ih (fun q hq => hkeys q (List.mem_cons_of_mem _ hq)) hnodup'
    unfold IntelligentMapping.exportMappingConfig
      IntelligentMapping.importMappingConfig at hrest
    rw [hrest, ← hk]

/-- C8 witness: a concrete well-keyed repository round-trips exactly. -/
theorem C8_witness :
    IntelligentMapping.importMappingConfig
      (IntelligentMapping.exportMappingConfig
        [("a_to_b", { id := "a_to_b", sourceTable := "a", targetTable := "b",
                      columnMappings := [], enabled := true, confidence := none,
                      mappingType := "one-to-one" })]) =
      [("a_to_b", { id := "a_to_b", sourceTable := "a", targetTable := "b",
                    columnMappings := [], enabled := true, confidence := none,
                    mappingType := "one-to-one" })] :=
  C8_export_import_roundtrip_amended _ (by decide) (by decide)

/-- A repository state with two stored mappings sharing the id `"dup"`
(reachable: create `A_to_B`, patch its id to `"dup"` via
`updateTableMapping` — which re-keys nothing — then create and patch a
second mapping likewise). -/
def dupIdRepo : List (String × IntelligentMapping.TableMapping) :=
  [("A_to_B", { id := "dup", sourceTable := "A", targetTable := "B",
                columnMappings := [{ id := "x_to_y", sourceColumn := "x",
                                     sourceType := "VARCHAR", targetColumn := "y",
                                     targetType := "VARCHAR", nullable := true,
                                     confidence := 1, autoDetected := false }],
                enabled := true, confidence := none, mappingType := "one-to-one" }),
   ("C_to_D", { id := "dup", sourceTable := "C", targetTable := "D",
                columnMappings := [], enabled := true, confidence := none,
                mappingType := "one-to-one" })]

/-- C8 counterexample: on `dupIdRepo` — a reachable state in which two
stored mappings share one id — importing the exported configuration
re-keys both mappings to `"dup"`, so the second overwrites the first: the
`A_to_B` mapping, together with its column mappings, is lost by the
round trip, refuting "for every repository state". -/
theorem C8_counterexample :
    dupIdRepo.head?.map (fun p => p.2.columnMappings.length) = some 1 ∧
      IntelligentMapping.importMappingConfig
          (IntelligentMapping.exportMappingConfig dupIdRepo) =
        [("dup", { id := "dup", sourceTable := "C", targetTable := "D",
                   columnMappings := [], enabled := true, confidence := none,
                   mappingType := "one-to-one" })] ∧
      IntelligentMapping.importMappingConfig
          (IntelligentMapping.exportMappingConfig dupIdRepo) ≠ dupIdRepo := by
  refine ⟨rfl, by decide, by decide⟩

namespace IntelligentMapping

theorem mem_insertDesc {x y : MappingSuggestion} :
    ∀ {l : List MappingSuggestion}, y ∈ insertDesc x l ↔ y = x ∨ y ∈ l := by
  intro l
  induction l with
  | nil => simp [insertDesc]
  | cons z zs ih =>
    unfold insertDesc
    split_ifs with h
    · simp
    · simp only [List.mem_cons, ih]
      tauto

theorem mem_sortByConfidenceDesc {y : MappingSuggestion} :
    ∀ {l : List MappingSuggestion}, y ∈ sortByConfidenceDesc l ↔ y ∈ l := by
  intro l
  induction l with
  | nil => simp [sortByConfidenceDesc]
  | cons z zs ih =>
    unfold sortByConfidenceDesc at ih ⊢
    rw [List.foldr_cons, mem_insertDesc, ih, List.mem_cons]

/-- Every suggestion produced by `findTableSuggestions` records a real
target table and its (non-`NaN`) similarity above the `0.3` floor. -/
theorem findTableSuggestions_mem {tgt : List TableInfo} {sourceTable : TableInfo}
    {sug : MappingSuggestion} (h : sug ∈ findTableSuggestions tgt sourceTable) :
    ∃ t ∈ tgt, ∃ q, calculateTableSimilarity sourceTable t = some q ∧ q > 0.3 ∧
      sug.sourceItem = sourceTable.name ∧ sug.targetItem = t.name ∧
      sug.confidence = q := by
  unfold findTableSuggestions at h
  rw [mem_sortByConfidenceDesc] at h
  obtain ⟨t, ht, hf⟩ := List.mem_filterMap.mp h
  refine ⟨t, ht, ?_⟩
  cases hsim : calculateTableSimilarity sourceTable t with
  | none => rw [hsim] at hf; cases hf
  | some q =>
    rw [hsim] at hf
    dsimp only at hf
    by_cases hq : q > 0.3
    · rw [if_pos hq] at hf
      cases hf
      exact ⟨q, rfl, hq, rfl, rfl, rfl⟩
    · rw [if_neg hq] at hf
      cases hf

theorem mapSet_mem {m : List (String × TableMapping)} {k : String} {v : TableMapping} :
    ∀ p ∈ mapSet m k v, p ∈ m ∨ p = (k, v) := by
  intro p hp
  unfold mapSet at hp
  split_ifs at hp with hany
  · obtain ⟨q, hq, hfq⟩ := List.mem_map.mp hp
    by_cases hqk : (q.1 == k) = true
    · rw [if_pos hqk] at hfq
      exact Or.inr hfq.symm
    · rw [if_neg hqk] at hfq
      exact Or.inl (hfq ▸ hq)
  · rcases List.mem_append.mp hp with h | h
    · exact Or.inl h
    · exact Or.inr (List.mem_singleton.mp h)

/-- Shape of a successful `createTableMapping`: schemas untouched, the
new mapping records the requested names, and the repository gains at most
that one mapping. -/
theorem createTableMapping_ok {st : EngineState} {srcN tgtN : String} {auto : Bool}
    {st' : EngineState} {mp : TableMapping}
    (h : createTableMapping st srcN tgtN auto = .ok (st', mp)) :
    st'.sourceSchema = st.sourceSchema ∧ st'.targetSchema = st.targetSchema ∧
      mp.sourceTable = srcN ∧ mp.targetTable = tgtN ∧
      ∀ p ∈ st'.tableMappings, p ∈ st.tableMappings ∨ p.2 = mp := by
  unfold createTableMapping at h
  split at h
  · rename_i sourceTableInfo targetTableInfo hf1 hf2
    injection h with h
    injection h with h1 h2
    subst h1
    subst h2
    refine ⟨rfl, rfl, rfl, rfl, ?_⟩
    intro p hp
    rcases mapSet_mem p hp with hm | hm
    · exact Or.inl hm
    · exact Or.inr (by rw [hm])
  · cases h

/-- Invariant of the auto-mapping loop: every mapping added by `gtsGo`
comes from a source/target table pair whose similarity reached the
threshold. -/
theorem gtsGo_ok (thr : ℚ) (src tgt : List TableInfo) :
    ∀ (l : List TableInfo) (st : EngineState) (sg : List MappingSuggestion)
      (out : EngineState × List MappingSuggestion),
      st.targetSchema = tgt →
      (∀ x ∈ l, x ∈ src) →
      gtsGo thr l st sg = .ok out →
      ∀ p ∈ out.1.tableMappings,
        p ∈ st.tableMappings ∨
          ∃ s ∈ src, ∃ t ∈ tgt,
            p.2.sourceTable = s.name ∧ p.2.targetTable = t.name ∧
            ∃ q, calculateTableSimilarity s t = some q ∧ thr ≤ q := by
  intro l
  induction l with
  | nil =>
    intro st sg out _ _ hrun p hp
    rw [gtsGo] at hrun
    injection hrun with hrun
    rw [← hrun] at hp
    exact Or.inl hp
  | cons sourceTable rest ih =>
    intro st sg out htgt hsrc hrun p hp
    rw [gtsGo] at hrun
    rcases hmatch : findTableSuggestions st.targetSchema sourceTable with
      _ | ⟨bestMatch, others⟩
    · rw [hmatch] at hrun
      dsimp only at hrun
      exact ih st sg out htgt (fun x hx => hsrc x (List.mem_cons_of_mem _ hx)) hrun p hp
    · rw [hmatch] at hrun
      dsimp only at hrun
      by_cases hconf : bestMatch.confidence ≥ thr
      · rw [if_pos hconf] at hrun
        rcases hcr : createTableMapping st sourceTable.name bestMatch.targetItem true with
          e | ⟨st1, mp⟩
        · rw [hcr] at hrun; cases hrun
        · rw [hcr] at hrun
          obtain ⟨hsch1, hsch2, hmpsrc, hmptgt, hadd⟩ := createTableMapping_ok hcr
          have hrec := ih st1 (sg ++ (bestMatch :: others)) out
            (hsch2.trans htgt) (fun x hx => hsrc x (List.mem_cons_of_mem _ hx)) hrun p hp
          rcases hrec with hin | hnew
          · rcases hadd p hin with hin' | hmp
            · exact Or.inl hin'
            · -- p is the freshly created mapping
              right
              have hbm : bestMatch ∈ findTableSuggestions st.targetSchema sourceTable := by
                rw [hmatch]; exact List.mem_cons_self _ _
              rw [htgt] at hbm
              obtain ⟨t, ht, q, hsim, _, _, htgtitem, hqconf⟩ :=
                findTableSuggestions_mem hbm
              refine ⟨sourceTable, hsrc _ (List.mem_cons_self _ _), t, ht, ?_, ?_, q, hsim, ?_⟩
              · rw [hmp, hmpsrc]
              · rw [hmp, hmptgt, htgtitem]
              · rw [← hqconf]; exact hconf
          · exact Or.inr hnew
      · rw [if_neg hconf] at hrun
        exact ih st (sg ++ (bestMatch :: others)) out htgt
          (fun x hx => hsrc x (List.mem_cons_of_mem _ hx)) hrun p hp

end IntelligentMapping

/-- C5: every `TableMapping` materialized automatically during schema
analysis comes from a matched source/target table pair whose
`calculateTableSimilarity` score is at least `similarityThreshold`
(`bestMatch.confidence >= threshold` guards every `createTableMapping`
call, and that confidence is exactly the pair's similarity); auto-mapping
never creates a mapping from a below-threshold pair. -/
theorem C5_auto_mapping_respects_threshold
    (src tgt : List TableInfo) (thr : ℚ)
    (st' : IntelligentMapping.EngineState)
    (suggs : List IntelligentMapping.MappingSuggestion)
    (hrun : IntelligentMapping.generateTableSuggestions thr ⟨src, tgt, []⟩ =
      Except.ok (st', suggs)) :
    ∀ p ∈ st'.tableMappings,
      ∃ s ∈ src, ∃ t ∈ tgt,
        p.2.sourceTable = s.name ∧ p.2.targetTable = t.name ∧
        ∃ q, IntelligentMapping.calculateTableSimilarity s t = some q ∧ thr ≤ q := by
  intro p hp
  have h := IntelligentMapping.gtsGo_ok thr src tgt src ⟨src, tgt, []⟩ [] (st', suggs)
    rfl (fun x hx => hx) hrun p hp
  rcases h with h | h
  · cases h
  · exact h

namespace IntelligentMapping

/-- Witness data for the auto-mapping theorem: one source and one target
table with identical names and one identical column. -/
def witColumn : ColumnInfo := { name := "ID", type := "VARCHAR", originalType := "VARCHAR" }

def witSource : List TableInfo := [{ name := "CUSTOMERS", columns := [witColumn] }]

def witTarget : List TableInfo := [{ name := "CUSTOMERS", columns := [witColumn] }]

def witColumnMapping : ColumnMapping :=
  { id := "ID_to_ID", sourceColumn := "ID", sourceType := "VARCHAR",
    targetColumn := "ID", targetType := "VARCHAR",
    transformation := some { type := "direct" }, nullable := true,
    confidence := 100, autoDetected := true }

def witMapping : TableMapping :=
  { id := "CUSTOMERS_to_CUSTOMERS", sourceTable := "CUSTOMERS",
    targetTable := "CUSTOMERS", columnMappings := [witColumnMapping],
    enabled := true, confidence := some 100, mappingType := "one-to-one" }

def witSuggestion : MappingSuggestion :=
  { type := "table", sourceItem := "CUSTOMERS", targetItem := "CUSTOMERS",
    confidence := 1, reason := "Nome muito similar e estrutura compatível" }

theorem witStrSim : calculateStringSimilarity "CUSTOMERS" "CUSTOMERS" = 1 := by
  norm_num +decide [calculateStringSimilarity]

theorem witStrSimId : calculateStringSimilarity "ID" "ID" = 1 := by
  norm_num +decide [calculateStringSimilarity]

theorem witTypeSim : calculateTypeSimilarity "VARCHAR" "VARCHAR" = 1 := by
  norm_num +decide [calculateTypeSimilarity]

theorem witTableSim :
    calculateTableSimilarity ⟨"CUSTOMERS", [witColumn], []⟩
      ⟨"CUSTOMERS", [witColumn], []⟩ = some 1 := by
  norm_num +decide [calculateTableSimilarity, calculateColumnStructureSimilarity,
    calculateStringSimilarity, calculateTypeSimilarity, witColumn]

theorem witColumn_name : witColumn.name = "ID" := rfl

theorem witColumn_type : witColumn.type = "VARCHAR" := rfl

theorem witColumn_nullable : witColumn.nullable = true := rfl

theorem witUpperVarchar : JS.upper "VARCHAR" = "VARCHAR" := by decide

theorem witBestMatch : findBestColumnMatch witColumn [witColumn] = some (witColumn, 1) := by
  unfold findBestColumnMatch
  norm_num [witColumn_name, witColumn_type, witStrSimId, witTypeSim]

theorem witFieldTransformation :
    generateFieldTransformation witColumn witColumn = { type := "direct" } := by
  unfold generateFieldTransformation
  norm_num +decide [isParadoxColumn, isSQLiteColumn, witColumn_type, witColumn,
    witUpperVarchar, witTypeSim]

theorem witColumnMappings :
    generateColumnMappings [witColumn] [witColumn] = [witColumnMapping] := by
  unfold generateColumnMappings
  norm_num [List.filterMap_cons, witBestMatch, witFieldTransformation,
    witColumn_name, witColumn_type, witColumn_nullable, witColumnMapping]
  rfl

theorem witCreate :
    createTableMapping ⟨witSource, witTarget, []⟩ "CUSTOMERS" "CUSTOMERS" true =
      Except.ok (⟨witSource, witTarget, [("CUSTOMERS_to_CUSTOMERS", witMapping)]⟩,
        witMapping) := by
  unfold createTableMapping
  norm_num +decide [witSource, witTarget, witTableSim, witColumnMappings, witMapping,
    mapSet]

theorem witFind :
    findTableSuggestions witTarget ⟨"CUSTOMERS", [witColumn], []⟩ = [witSuggestion] := by
  unfold findTableSuggestions
  norm_num [witTarget, List.filterMap_cons, witTableSim, getTableSimilarityReason,
    sortByConfidenceDesc, insertDesc, witSuggestion]

theorem witEval :
    generateTableSuggestions (7 / 10) ⟨witSource, witTarget, []⟩ =
      Except.ok (⟨witSource, witTarget, [("CUSTOMERS_to_CUSTOMERS", witMapping)]⟩,
        [witSuggestion]) := by
  unfold generateTableSuggestions
  show gtsGo (7 / 10) [⟨"CUSTOMERS", [witColumn], []⟩] ⟨witSource, witTarget, []⟩ [] = _
  rw [gtsGo]
  norm_num [witFind, witSuggestion, witCreate, gtsGo]

end IntelligentMapping

/-- C5 witness: the theorem applied to the concrete schemas above — the
single auto-created mapping comes from the `CUSTOMERS` pair, whose
similarity (1) reaches the default threshold `0.7`. -/
theorem C5_witness :
    ∃ s ∈ IntelligentMapping.witSource, ∃ t ∈ IntelligentMapping.witTarget,
      ("CUSTOMERS_to_CUSTOMERS", IntelligentMapping.witMapping).2.sourceTable = s.name ∧
      ("CUSTOMERS_to_CUSTOMERS", IntelligentMapping.witMapping).2.targetTable = t.name ∧
      ∃ q, IntelligentMapping.calculateTableSimilarity s t = some q ∧ (7 / 10 : ℚ) ≤ q :=
  C5_auto_mapping_respects_threshold IntelligentMapping.witSource
    IntelligentMapping.witTarget (7 / 10) _ _ IntelligentMapping.witEval
    ("CUSTOMERS_to_CUSTOMERS", IntelligentMapping.witMapping)
    (List.mem_singleton.mpr rfl)
